import Mathlib

/-!
# Channel bookmark model (`server/public/model/channel_bookmark.go`)

A shallow embedding of the channel bookmark record, its validator `IsValid`,
the lineage fork `SetOriginal`, the hooks `PreSave` and `PreUpdate`, the partial
update `Patch`, the composition with file metadata, the audit snapshot, and the
list fingerprint of `channel_list.go`, followed by theorems about them.

Conventions of the embedding

* A Go `string` is a Lean `String`; the records handled here are decoded from
  JSON, so their strings are well-formed UTF-8 and `utf8.RuneCountInString`
  is the number of code points, `String.length`.
* A Go `int64` is an `Int`; no arithmetic is performed on the timestamps, they
  are only compared with `0` and copied.
* A method with a pointer receiver that writes to the receiver is a function
  returning the receiver after the call.
* `IsValidID`, `IsValidHTTPURL` and `SanitizeUnicode` live in a file that is
  not part of this development; they are parameters of the definitions that
  call them.  The values returned by `NewID()` and `GetMillis()` are passed in
  as arguments.
-/

namespace Model

/-! ## Definitions -/

/-- Go `utf8.RuneCountInString` on a well-formed UTF-8 string: the number of
code points. -/
def RuneCountInString (s : String) : Nat := s.length

/-- Go `strings.Trim(s, cutset)`: `s` without the leading and trailing code
points that occur in `cutset`. -/
def stringsTrim (s cutset : String) : String :=
  String.mk
    (((s.data.dropWhile fun c => cutset.data.contains c).reverse.dropWhile
      fun c => cutset.data.contains c).reverse)

/-- The string type `ChannelBookmarkType`. -/
abbrev ChannelBookmarkType := String

def ChannelBookmarkLink : ChannelBookmarkType := "link"

def ChannelBookmarkFile : ChannelBookmarkType := "file"

def BookmarkFileOwner : String := "bookmark"

def MaxBookmarksPerChannel : Nat := 50

def DisplayNameMaxRunes : Nat := 64

def LinkMaxRunes : Nat := 1024

/-- Go `http.StatusBadRequest`. -/
def StatusBadRequest : Nat := 400

/-- The record `ChannelBookmark`; the field `Type` is spelled `Type_`. -/
structure ChannelBookmark where
  ID : String
  CreateAt : Int
  UpdateAt : Int
  DeleteAt : Int
  ChannelID : String
  OwnerID : String
  FileID : String
  DisplayName : String
  SortOrder : Int
  LinkUrl : String
  ImageUrl : String
  Emoji : String
  Type_ : ChannelBookmarkType
  OriginalID : String
  ParentID : String
deriving DecidableEq, Repr

/-- Modelled from the spec: the error type `AppError` is declared outside the
files at hand.  A violation carries the place that raised it, a machine-stable
code, free-text context and an HTTP-style status. -/
structure AppError where
  Where : String
  Id : String
  DetailedError : String
  StatusCode : Nat
deriving DecidableEq, Repr

/-- Modelled from the spec: the constructor `NewAppError(where, id, params,
details, status)` is declared outside the files at hand; it stores its
arguments in the violation (the translation parameters, always `nil` in this
file, are not kept). -/
def NewAppError (wh id : String) (_params : List (String × String)) (details : String)
    (status : Nat) : AppError :=
  { Where := wh, Id := id, DetailedError := details, StatusCode := status }

/-- The method `(*ChannelBookmark).IsValid`: `none` is Go's `nil`, no violation.
The checks are the `if` statements of the source, in the source's order. -/
def IsValid (IsValidID IsValidHTTPURL : String → Bool) (o : ChannelBookmark) :
    Option AppError :=
  if ¬ (IsValidID o.ID = true) then
    some (NewAppError "ChannelBookmark.IsValid" "model.channel_bookmark.is_valid.id.app_error"
      [] "" StatusBadRequest)
  else if o.CreateAt = 0 then
    some (NewAppError "ChannelBookmark.IsValid"
      "model.channel_bookmark.is_valid.create_at.app_error" [] ("id=" ++ o.ID) StatusBadRequest)
  else if o.UpdateAt = 0 then
    some (NewAppError "ChannelBookmark.IsValid"
      "model.channel_bookmark.is_valid.update_at.app_error" [] ("id=" ++ o.ID) StatusBadRequest)
  else if ¬ (IsValidID o.ChannelID = true) then
    some (NewAppError "ChannelBookmark.IsValid"
      "model.channel_bookmark.is_valid.channel_id.app_error" [] "" StatusBadRequest)
  else if ¬ (IsValidID o.OwnerID = true) then
    some (NewAppError "ChannelBookmark.IsValid"
      "model.channel_bookmark.is_valid.owner_id.app_error" [] "" StatusBadRequest)
  else if o.DisplayName = "" ∨ RuneCountInString o.DisplayName > DisplayNameMaxRunes then
    some (NewAppError "ChannelBookmark.IsValid"
      "model.channel_bookmark.is_valid.display_name.app_error" [] "" StatusBadRequest)
  else if ¬ (o.Type_ = ChannelBookmarkFile ∨ o.Type_ = ChannelBookmarkLink) then
    some (NewAppError "ChannelBookmark.IsValid"
      "model.channel_bookmark.is_valid.type.app_error" [] ("id=" ++ o.ID) StatusBadRequest)
  else if o.Type_ = ChannelBookmarkLink ∧ o.FileID ≠ "" then
    some (NewAppError "ChannelBookmark.IsValid"
      "model.channel_bookmark.is_valid.file_id.missing_or_invalid.app_error" []
      ("id=" ++ o.ID) StatusBadRequest)
  else if o.Type_ = ChannelBookmarkFile ∧ o.LinkUrl ≠ "" then
    some (NewAppError "ChannelBookmark.IsValid"
      "model.channel_bookmark.is_valid.link_url.missing_or_invalid.app_error" []
      ("id=" ++ o.ID) StatusBadRequest)
  else if o.Type_ = ChannelBookmarkLink ∧
      (o.LinkUrl = "" ∨ ¬ (IsValidHTTPURL o.LinkUrl = true) ∨
        RuneCountInString o.LinkUrl > LinkMaxRunes) then
    some (NewAppError "ChannelBookmark.IsValid"
      "model.channel_bookmark.is_valid.link_url.missing_or_invalid.app_error" []
      ("id=" ++ o.ID) StatusBadRequest)
  else if o.Type_ = ChannelBookmarkLink ∧ o.ImageUrl ≠ "" ∧
      (¬ (IsValidHTTPURL o.ImageUrl = true) ∨ RuneCountInString o.ImageUrl > LinkMaxRunes) then
    some (NewAppError "ChannelBookmark.IsValid"
      "model.channel_bookmark.is_valid.image_url.app_error" [] ("id=" ++ o.ID) StatusBadRequest)
  else if o.Type_ = ChannelBookmarkFile ∧ (o.FileID = "" ∨ ¬ (IsValidID o.FileID = true)) then
    some (NewAppError "ChannelBookmark.IsValid"
      "model.channel_bookmark.is_valid.file_id.missing_or_invalid.app_error" []
      ("id=" ++ o.ID) StatusBadRequest)
  else if o.ImageUrl ≠ "" ∧ o.FileID ≠ "" then
    some (NewAppError "ChannelBookmark.IsValid"
      "model.channel_bookmark.is_valid.link_file.app_error" [] ("id=" ++ o.ID) StatusBadRequest)
  else if o.OriginalID ≠ "" ∧ ¬ (IsValidID o.OriginalID = true) then
    some (NewAppError "ChannelBookmark.IsValid"
      "model.channel_bookmark.is_valid.original_id.app_error" [] "" StatusBadRequest)
  else if o.ParentID ≠ "" ∧ ¬ (IsValidID o.ParentID = true) then
    some (NewAppError "ChannelBookmark.IsValid"
      "model.channel_bookmark.is_valid.parent_id.app_error" [] "" StatusBadRequest)
  else
    none

/-- The invariant set of the data model, item by item as the specification
lists it, over given identifier and URL predicates. -/
def InvariantSet (IsValidID IsValidHTTPURL : String → Bool) (o : ChannelBookmark) : Prop :=
  (IsValidID o.ID = true ∧ IsValidID o.ChannelID = true ∧ IsValidID o.OwnerID = true) ∧
  (o.CreateAt ≠ 0 ∧ o.UpdateAt ≠ 0) ∧
  (o.DisplayName ≠ "" ∧ RuneCountInString o.DisplayName ≤ 64) ∧
  (o.Type_ = "link" ∨ o.Type_ = "file") ∧
  (o.Type_ = "link" →
    o.FileID = "" ∧
    (o.LinkUrl ≠ "" ∧ IsValidHTTPURL o.LinkUrl = true ∧ RuneCountInString o.LinkUrl ≤ 1024) ∧
    (o.ImageUrl = "" ∨
      (IsValidHTTPURL o.ImageUrl = true ∧ RuneCountInString o.ImageUrl ≤ 1024))) ∧
  (o.Type_ = "file" → o.LinkUrl = "" ∧ (o.FileID ≠ "" ∧ IsValidID o.FileID = true)) ∧
  ¬ (o.ImageUrl ≠ "" ∧ o.FileID ≠ "") ∧
  ((o.OriginalID = "" ∨ IsValidID o.OriginalID = true) ∧
    (o.ParentID = "" ∨ IsValidID o.ParentID = true))

/-- The invariant set without its display-name item. -/
def InvariantsOtherThanDisplayName (IsValidID IsValidHTTPURL : String → Bool)
    (o : ChannelBookmark) : Prop :=
  (IsValidID o.ID = true ∧ IsValidID o.ChannelID = true ∧ IsValidID o.OwnerID = true) ∧
  (o.CreateAt ≠ 0 ∧ o.UpdateAt ≠ 0) ∧
  (o.Type_ = "link" ∨ o.Type_ = "file") ∧
  (o.Type_ = "link" →
    o.FileID = "" ∧
    (o.LinkUrl ≠ "" ∧ IsValidHTTPURL o.LinkUrl = true ∧ RuneCountInString o.LinkUrl ≤ 1024) ∧
    (o.ImageUrl = "" ∨
      (IsValidHTTPURL o.ImageUrl = true ∧ RuneCountInString o.ImageUrl ≤ 1024))) ∧
  (o.Type_ = "file" → o.LinkUrl = "" ∧ (o.FileID ≠ "" ∧ IsValidID o.FileID = true)) ∧
  ¬ (o.ImageUrl ≠ "" ∧ o.FileID ≠ "") ∧
  ((o.OriginalID = "" ∨ IsValidID o.OriginalID = true) ∧
    (o.ParentID = "" ∨ IsValidID o.ParentID = true))

/-- The checks of the validator that do not depend on the kind of the bookmark:
valid id, channelId and ownerId, non-zero createAt and updateAt, a displayName
of 1 to 64 runes, originalId and parentId empty or valid. -/
def KindIndependentChecks (IsValidID : String → Bool) (o : ChannelBookmark) : Prop :=
  (IsValidID o.ID = true ∧ IsValidID o.ChannelID = true ∧ IsValidID o.OwnerID = true) ∧
  (o.CreateAt ≠ 0 ∧ o.UpdateAt ≠ 0) ∧
  (1 ≤ RuneCountInString o.DisplayName ∧ RuneCountInString o.DisplayName ≤ 64) ∧
  (o.OriginalID = "" ∨ IsValidID o.OriginalID = true) ∧
  (o.ParentID = "" ∨ IsValidID o.ParentID = true)

/-- One check of a validator: when it fails, and the violation it reports. -/
structure Check where
  fails : ChannelBookmark → Bool
  violation : ChannelBookmark → AppError

/-- The violation of the first failing check of a list, in list order; `none`
when every check passes. -/
def firstViolation (checks : List Check) (o : ChannelBookmark) : Option AppError :=
  (checks.find? fun c => c.fails o).map fun c => c.violation o

def checkID (IsValidID : String → Bool) : Check :=
  { fails := fun o => !IsValidID o.ID
    violation := fun _ => NewAppError "ChannelBookmark.IsValid"
      "model.channel_bookmark.is_valid.id.app_error" [] "" StatusBadRequest }

def checkCreateAt : Check :=
  { fails := fun o => decide (o.CreateAt = 0)
    violation := fun o => NewAppError "ChannelBookmark.IsValid"
      "model.channel_bookmark.is_valid.create_at.app_error" [] ("id=" ++ o.ID)
      StatusBadRequest }

def checkUpdateAt : Check :=
  { fails := fun o => decide (o.UpdateAt = 0)
    violation := fun o => NewAppError "ChannelBookmark.IsValid"
      "model.channel_bookmark.is_valid.update_at.app_error" [] ("id=" ++ o.ID)
      StatusBadRequest }

def checkChannelID (IsValidID : String → Bool) : Check :=
  { fails := fun o => !IsValidID o.ChannelID
    violation := fun _ => NewAppError "ChannelBookmark.IsValid"
      "model.channel_bookmark.is_valid.channel_id.app_error" [] "" StatusBadRequest }

def checkOwnerID (IsValidID : String → Bool) : Check :=
  { fails := fun o => !IsValidID o.OwnerID
    violation := fun _ => NewAppError "ChannelBookmark.IsValid"
      "model.channel_bookmark.is_valid.owner_id.app_error" [] "" StatusBadRequest }

def checkDisplayName : Check :=
  { fails := fun o =>
      decide (o.DisplayName = "" ∨ RuneCountInString o.DisplayName > DisplayNameMaxRunes)
    violation := fun _ => NewAppError "ChannelBookmark.IsValid"
      "model.channel_bookmark.is_valid.display_name.app_error" [] "" StatusBadRequest }

def checkType : Check :=
  { fails := fun o => decide (¬ (o.Type_ = ChannelBookmarkFile ∨ o.Type_ = ChannelBookmarkLink))
    violation := fun o => NewAppError "ChannelBookmark.IsValid"
      "model.channel_bookmark.is_valid.type.app_error" [] ("id=" ++ o.ID) StatusBadRequest }

/-- Link rule: a link bookmark carries no file id. -/
def checkLinkFileID : Check :=
  { fails := fun o => decide (o.Type_ = ChannelBookmarkLink ∧ o.FileID ≠ "")
    violation := fun o => NewAppError "ChannelBookmark.IsValid"
      "model.channel_bookmark.is_valid.file_id.missing_or_invalid.app_error" []
      ("id=" ++ o.ID) StatusBadRequest }

/-- Link rule: the link URL is present, valid and within the rune ceiling. -/
def checkLinkLinkUrl (IsValidHTTPURL : String → Bool) : Check :=
  { fails := fun o => decide (o.Type_ = ChannelBookmarkLink ∧
      (o.LinkUrl = "" ∨ ¬ (IsValidHTTPURL o.LinkUrl = true) ∨
        RuneCountInString o.LinkUrl > LinkMaxRunes))
    violation := fun o => NewAppError "ChannelBookmark.IsValid"
      "model.channel_bookmark.is_valid.link_url.missing_or_invalid.app_error" []
      ("id=" ++ o.ID) StatusBadRequest }

/-- Link rule: the image URL, when present, is valid and within the rune ceiling. -/
def checkLinkImageUrl (IsValidHTTPURL : String → Bool) : Check :=
  { fails := fun o => decide (o.Type_ = ChannelBookmarkLink ∧ o.ImageUrl ≠ "" ∧
      (¬ (IsValidHTTPURL o.ImageUrl = true) ∨ RuneCountInString o.ImageUrl > LinkMaxRunes))
    violation := fun o => NewAppError "ChannelBookmark.IsValid"
      "model.channel_bookmark.is_valid.image_url.app_error" [] ("id=" ++ o.ID)
      StatusBadRequest }

/-- File rule: a file bookmark carries no link URL. -/
def checkFileLinkUrl : Check :=
  { fails := fun o => decide (o.Type_ = ChannelBookmarkFile ∧ o.LinkUrl ≠ "")
    violation := fun o => NewAppError "ChannelBookmark.IsValid"
      "model.channel_bookmark.is_valid.link_url.missing_or_invalid.app_error" []
      ("id=" ++ o.ID) StatusBadRequest }

/-- File rule: the file id is present and valid. -/
def checkFileFileID (IsValidID : String → Bool) : Check :=
  { fails := fun o =>
      decide (o.Type_ = ChannelBookmarkFile ∧ (o.FileID = "" ∨ ¬ (IsValidID o.FileID = true)))
    violation := fun o => NewAppError "ChannelBookmark.IsValid"
      "model.channel_bookmark.is_valid.file_id.missing_or_invalid.app_error" []
      ("id=" ++ o.ID) StatusBadRequest }

/-- Exclusivity of imageUrl and fileId. -/
def checkLinkFile : Check :=
  { fails := fun o => decide (o.ImageUrl ≠ "" ∧ o.FileID ≠ "")
    violation := fun o => NewAppError "ChannelBookmark.IsValid"
      "model.channel_bookmark.is_valid.link_file.app_error" [] ("id=" ++ o.ID)
      StatusBadRequest }

def checkOriginalID (IsValidID : String → Bool) : Check :=
  { fails := fun o => decide (o.OriginalID ≠ "" ∧ ¬ (IsValidID o.OriginalID = true))
    violation := fun _ => NewAppError "ChannelBookmark.IsValid"
      "model.channel_bookmark.is_valid.original_id.app_error" [] "" StatusBadRequest }

def checkParentID (IsValidID : String → Bool) : Check :=
  { fails := fun o => decide (o.ParentID ≠ "" ∧ ¬ (IsValidID o.ParentID = true))
    violation := fun _ => NewAppError "ChannelBookmark.IsValid"
      "model.channel_bookmark.is_valid.parent_id.app_error" [] "" StatusBadRequest }

/-- The checks in the order in which the specification lists the invariant set:
the identifier checks on id, channelId and ownerId, then createAt and updateAt,
then displayName, then kind, then the link rules, then the file rules, then the
exclusivity of imageUrl and fileId, then originalId and parentId. -/
def listedOrderChecks (IsValidID IsValidHTTPURL : String → Bool) : List Check :=
  [checkID IsValidID, checkChannelID IsValidID, checkOwnerID IsValidID,
   checkCreateAt, checkUpdateAt, checkDisplayName, checkType,
   checkLinkFileID, checkLinkLinkUrl IsValidHTTPURL, checkLinkImageUrl IsValidHTTPURL,
   checkFileLinkUrl, checkFileFileID IsValidID,
   checkLinkFile, checkOriginalID IsValidID, checkParentID IsValidID]

/-- The listed order with the two timestamp checks moved in front of the
channelId and ownerId checks. -/
def timestampsFirstChecks (IsValidID IsValidHTTPURL : String → Bool) : List Check :=
  [checkID IsValidID, checkCreateAt, checkUpdateAt,
   checkChannelID IsValidID, checkOwnerID IsValidID, checkDisplayName, checkType,
   checkLinkFileID, checkLinkLinkUrl IsValidHTTPURL, checkLinkImageUrl IsValidHTTPURL,
   checkFileLinkUrl, checkFileFileID IsValidID,
   checkLinkFile, checkOriginalID IsValidID, checkParentID IsValidID]

/-- The method `(*ChannelBookmark).SetOriginal`.  The first component is the
receiver `*o` after the call, the second the record the returned pointer
refers to (`bCopy`, a copy by value of `*o` with six fields overwritten). -/
def SetOriginal (o : ChannelBookmark) (newOwnerID : String) :
    ChannelBookmark × ChannelBookmark :=
  let bCopy := o
  let bCopy := { bCopy with ID := "" }
  let bCopy := { bCopy with CreateAt := 0 }
  let bCopy := { bCopy with DeleteAt := 0 }
  let bCopy := { bCopy with UpdateAt := 0 }
  let bCopy := { bCopy with OriginalID := o.ID }
  let bCopy := { bCopy with OwnerID := newOwnerID }
  (o, bCopy)

/-- The method `(*ChannelBookmark).PreSave`, returning the receiver after the
call.  `newID` is what `NewID()` returns and `millis` what `GetMillis()` returns
if they are called. -/
def PreSave (SanitizeUnicode : String → String) (newID : String) (millis : Int)
    (o : ChannelBookmark) : ChannelBookmark :=
  let o := if o.ID = "" then { o with ID := newID } else o
  let o := { o with DisplayName := SanitizeUnicode o.DisplayName }
  let o := { o with Emoji := stringsTrim o.Emoji ":" }
  let o := if o.CreateAt = 0 then { o with CreateAt := millis } else o
  { o with UpdateAt := o.CreateAt }

/-- The patch `ChannelBookmarkPatch`; a `nil` pointer is `none`. -/
structure ChannelBookmarkPatch where
  FileID : Option String
  DisplayName : Option String
  SortOrder : Option Int
  LinkUrl : Option String
  ImageUrl : Option String
  Emoji : Option String
deriving DecidableEq, Repr

/-- The method `(*ChannelBookmark).Patch`, returning the receiver after the
call. -/
def Patch (o : ChannelBookmark) (patch : ChannelBookmarkPatch) : ChannelBookmark :=
  let o := match patch.FileID with
    | some v => { o with FileID := v }
    | none => o
  let o := match patch.DisplayName with
    | some v => { o with DisplayName := v }
    | none => o
  let o := match patch.SortOrder with
    | some v => { o with SortOrder := v }
    | none => o
  let o := match patch.LinkUrl with
    | some v => { o with LinkUrl := v }
    | none => o
  let o := match patch.ImageUrl with
    | some v => { o with ImageUrl := v }
    | none => o
  let o := match patch.Emoji with
    | some v => { o with Emoji := v }
    | none => o
  o

/-! ### Concrete inputs -/

/-- An identifier predicate to evaluate the validator with: 26 alphanumeric
characters. -/
def exampleIsValidID (s : String) : Bool :=
  s.length == 26 && s.data.all Char.isAlphanum

/-- A URL predicate to evaluate the validator with: the string starts with an
HTTP or HTTPS scheme. -/
def exampleIsValidHTTPURL (s : String) : Bool :=
  "http://".data.isPrefixOf s.data || "https://".data.isPrefixOf s.data

/-- A sanitizer to evaluate the hooks with: it drops the bidirectional control
characters U+202A to U+202E and U+2066 to U+2069. -/
def exampleSanitizeUnicode (s : String) : String :=
  String.mk (s.data.filter fun c =>
    !((0x202A ≤ c.toNat && c.toNat ≤ 0x202E) || (0x2066 ≤ c.toNat && c.toNat ≤ 0x2069)))

/-- A valid file bookmark. -/
def fileBookmark : ChannelBookmark :=
  { ID := "aaaaaaaaaaaaaaaaaaaaaaaaaa", CreateAt := 2, UpdateAt := 3, DeleteAt := 0,
    ChannelID := "bbbbbbbbbbbbbbbbbbbbbbbbbb", OwnerID := "cccccccccccccccccccccccccc",
    FileID := "dddddddddddddddddddddddddd", DisplayName := "display name", SortOrder := 0,
    LinkUrl := "", ImageUrl := "", Emoji := "", Type_ := ChannelBookmarkFile,
    OriginalID := "", ParentID := "" }

/-- A file bookmark with a valid file id, no link URL, and an image URL. -/
def fileBookmarkWithImage : ChannelBookmark :=
  { fileBookmark with ImageUrl := "https://mattermost.com/some-image" }

/-- A valid link bookmark whose emoji is stored with its colons. -/
def linkBookmark : ChannelBookmark :=
  { ID := "aaaaaaaaaaaaaaaaaaaaaaaaaa", CreateAt := 2, UpdateAt := 3, DeleteAt := 0,
    ChannelID := "bbbbbbbbbbbbbbbbbbbbbbbbbb", OwnerID := "cccccccccccccccccccccccccc",
    FileID := "", DisplayName := "Docs", SortOrder := 0,
    LinkUrl := "https://example.com", ImageUrl := "", Emoji := ":smile:",
    Type_ := ChannelBookmarkLink, OriginalID := "", ParentID := "" }

/-- A record with a valid id, an invalid channelId and createAt == 0. -/
def badChannelNoCreateAt : ChannelBookmark :=
  { linkBookmark with ChannelID := "", CreateAt := 0 }

/-- A display name of 64 runes and 128 bytes. -/
def displayName64 : String := String.mk (List.replicate 64 'é')

/-- A display name of 65 runes. -/
def displayName65 : String := String.mk (List.replicate 65 'a')

/-! ### Hooks, composition, audit snapshot and list fingerprint

A pointer is an `Option` where `nil` is a value the code or its callers deal
with (an optional argument, an optional field); the receiver of a method and
the elements of a list of records are records. -/

/-- The method `(*ChannelBookmark).PreUpdate`, returning the receiver after the
call.  `millis` is what `GetMillis()` returns. -/
def PreUpdate (SanitizeUnicode : String → String) (millis : Int) (o : ChannelBookmark) :
    ChannelBookmark :=
  let o := { o with UpdateAt := millis }
  let o := { o with DisplayName := SanitizeUnicode o.DisplayName }
  { o with Emoji := stringsTrim o.Emoji ":" }

/-- A string begins with the character `c`. -/
def beginsWith (s : String) (c : Char) : Prop := s.data.head? = some c

/-- A string ends with the character `c`. -/
def endsWith (s : String) (c : Char) : Prop := s.data.getLast? = some c

/-- The string made of `n` colons. -/
def colons (n : Nat) : String := String.mk (List.replicate n ':')

/-- Modelled from the spec: the file-metadata record `FileInfo` is declared
outside the files at hand; these are the fields this file reads and writes:
the identity, name, extension, size, MIME type, dimensions, preview flag and
the optional inline thumbnail bytes. -/
structure FileInfo where
  ID : String
  Name : String
  Extension : String
  Size : Int
  MimeType : String
  Width : Int
  Height : Int
  HasPreviewImage : Bool
  MiniPreview : Option (List UInt8)
deriving DecidableEq, Repr

/-- The composite `ChannelBookmarkWithFileInfo`: a bookmark and an optional
file-metadata record. -/
structure ChannelBookmarkWithFileInfo where
  ChannelBookmark : ChannelBookmark
  FileInfo : Option FileInfo
deriving DecidableEq, Repr

/-- The method `(*ChannelBookmark).ToBookmarkWithFileInfo`.  The first component
is the receiver `*o` after the call, the second the composite returned. -/
def ToBookmarkWithFileInfo (o : ChannelBookmark) (f : Option FileInfo) :
    ChannelBookmark × ChannelBookmarkWithFileInfo :=
  let bwf : ChannelBookmarkWithFileInfo :=
    { ChannelBookmark :=
        { ID := o.ID
          CreateAt := o.CreateAt
          UpdateAt := o.UpdateAt
          DeleteAt := o.DeleteAt
          ChannelID := o.ChannelID
          OwnerID := o.OwnerID
          FileID := o.FileID
          DisplayName := o.DisplayName
          SortOrder := o.SortOrder
          LinkUrl := o.LinkUrl
          ImageUrl := o.ImageUrl
          Emoji := stringsTrim o.Emoji ":"
          Type_ := o.Type_
          OriginalID := o.OriginalID
          ParentID := o.ParentID }
      FileInfo := none }
  let bwf :=
    match f with
    | some fi => if fi.ID ≠ "" then { bwf with FileInfo := some fi } else bwf
    | none => bwf
  (o, bwf)

/-- The join row `ChannelBookmarkAndFileInfo`. -/
structure ChannelBookmarkAndFileInfo where
  ID : String
  CreateAt : Int
  UpdateAt : Int
  DeleteAt : Int
  ChannelID : String
  OwnerID : String
  FileInfoID : String
  DisplayName : String
  SortOrder : Int
  LinkUrl : String
  ImageUrl : String
  Emoji : String
  Type_ : ChannelBookmarkType
  OriginalID : String
  ParentID : String
  FileID : String
  FileName : String
  Extension : String
  Size : Int
  MimeType : String
  Width : Int
  Height : Int
  HasPreviewImage : Bool
  MiniPreview : Option (List UInt8)
deriving DecidableEq, Repr

/-- The method `(*ChannelBookmarkAndFileInfo).ToChannelBookmarkWithFileInfo`.
`none` is the run-time panic of `len(*miniPreview)` on a nil `MiniPreview`;
`some bwf` is a normal return. -/
def ToChannelBookmarkWithFileInfo (o : ChannelBookmarkAndFileInfo) :
    Option ChannelBookmarkWithFileInfo :=
  let bwf : ChannelBookmarkWithFileInfo :=
    { ChannelBookmark :=
        { ID := o.ID
          CreateAt := o.CreateAt
          UpdateAt := o.UpdateAt
          DeleteAt := o.DeleteAt
          ChannelID := o.ChannelID
          OwnerID := o.OwnerID
          FileID := o.FileInfoID
          DisplayName := o.DisplayName
          SortOrder := o.SortOrder
          LinkUrl := o.LinkUrl
          ImageUrl := o.ImageUrl
          Emoji := o.Emoji
          Type_ := o.Type_
          OriginalID := o.OriginalID
          ParentID := o.ParentID }
      FileInfo := none }
  if o.FileInfoID ≠ "" ∧ o.FileID ≠ "" then
    match o.MiniPreview with
    | none => none
    | some buf =>
      let miniPreview : Option (List UInt8) := if buf.length = 0 then none else some buf
      some { bwf with
        FileInfo := some
          { ID := o.FileID
            Name := o.FileName
            Extension := o.Extension
            Size := o.Size
            MimeType := o.MimeType
            Width := o.Width
            Height := o.Height
            HasPreviewImage := o.HasPreviewImage
            MiniPreview := miniPreview } }
  else
    some bwf

/-- A value of Go's `any` as it occurs in the audit snapshots: a string, an
`int64`, a bookmark kind, or a nested snapshot. -/
inductive AuditValue where
  | str (s : String)
  | int (i : Int)
  | bookmarkType (t : ChannelBookmarkType)
  | map (m : List (String × AuditValue))

/-- The method `(*ChannelBookmark).Auditable`; the `map[string]any` literal is
the list of its entries. -/
def ChannelBookmark.Auditable (o : ChannelBookmark) : List (String × AuditValue) :=
  [("id", AuditValue.str o.ID),
   ("create_at", AuditValue.int o.CreateAt),
   ("update_at", AuditValue.int o.UpdateAt),
   ("delete_at", AuditValue.int o.DeleteAt),
   ("channel_id", AuditValue.str o.ChannelID),
   ("owner_id", AuditValue.str o.OwnerID),
   ("file_id", AuditValue.str o.FileID),
   ("type", AuditValue.bookmarkType o.Type_),
   ("original_id", AuditValue.str o.OriginalID),
   ("parent_id", AuditValue.str o.ParentID)]

/-- Modelled from the spec: the record `Channel` is declared outside the files
at hand; these are the fields the fingerprint reads: the identifier, the
last-activity time and the update time. -/
structure Channel where
  ID : String
  LastPostAt : Int
  UpdateAt : Int
deriving DecidableEq, Repr

/-- Modelled from the spec: the record `ChannelWithTeamData` is declared outside
the files at hand: a channel together with a team-update time. -/
structure ChannelWithTeamData extends Channel where
  TeamUpdateAt : Int
deriving DecidableEq, Repr

abbrev ChannelList := List Channel

abbrev ChannelListWithTeamData := List ChannelWithTeamData

/-- One iteration of the loop of `(*ChannelList).Etag` on the pair `(id, t)`. -/
def ChannelList.step (acc : String × Int) (v : Channel) : String × Int :=
  let acc := if v.LastPostAt > acc.2 then (v.ID, v.LastPostAt) else acc
  let acc := if v.UpdateAt > acc.2 then (v.ID, v.UpdateAt) else acc
  acc

/-- The loop of `(*ChannelList).Etag`: the values of `id` and `t` after it,
started from `id := "0"` and `t := 0`. -/
def ChannelList.scan (o : ChannelList) : String × Int :=
  o.foldl ChannelList.step ("0", 0)

/-- The method `(*ChannelList).Etag`.  The token builder `Etag(parts ...any)` is
declared outside the files at hand and is a parameter; it receives the
identifier, the timestamp, `delta` (never assigned, so `0`) and `len(*o)`. -/
def ChannelList.Etag (Etag : String → Int → Int → Int → String) (o : ChannelList) : String :=
  let delta : Int := 0
  Etag (ChannelList.scan o).1 (ChannelList.scan o).2 delta (o.length : Int)

/-- One iteration of the loop of `(*ChannelListWithTeamData).Etag`. -/
def ChannelListWithTeamData.step (acc : String × Int) (v : ChannelWithTeamData) :
    String × Int :=
  let acc := if v.LastPostAt > acc.2 then (v.ID, v.LastPostAt) else acc
  let acc := if v.UpdateAt > acc.2 then (v.ID, v.UpdateAt) else acc
  let acc := if v.TeamUpdateAt > acc.2 then (v.ID, v.TeamUpdateAt) else acc
  acc

/-- The loop of `(*ChannelListWithTeamData).Etag`. -/
def ChannelListWithTeamData.scan (o : ChannelListWithTeamData) : String × Int :=
  o.foldl ChannelListWithTeamData.step ("0", 0)

/-- The method `(*ChannelListWithTeamData).Etag`, over the same token builder. -/
def ChannelListWithTeamData.Etag (Etag : String → Int → Int → Int → String)
    (o : ChannelListWithTeamData) : String :=
  let delta : Int := 0
  Etag (ChannelListWithTeamData.scan o).1 (ChannelListWithTeamData.scan o).2 delta
    (o.length : Int)

/-- The maximum of 0 and of `LastPostAt` and `UpdateAt` over the records of a
channel list. -/
def ChannelList.maxTimestamp (o : ChannelList) : Int :=
  (o.map fun v => max v.LastPostAt v.UpdateAt).foldr max 0

/-- The maximum of 0 and of `LastPostAt`, `UpdateAt` and `TeamUpdateAt` over the
records of a team-joined channel list. -/
def ChannelListWithTeamData.maxTimestamp (o : ChannelListWithTeamData) : Int :=
  (o.map fun v => max (max v.LastPostAt v.UpdateAt) v.TeamUpdateAt).foldr max 0

/-- A join row with both file identifiers set and no thumbnail buffer. -/
def joinRowNilPreview : ChannelBookmarkAndFileInfo :=
  { ID := "aaaaaaaaaaaaaaaaaaaaaaaaaa", CreateAt := 2, UpdateAt := 3, DeleteAt := 0,
    ChannelID := "bbbbbbbbbbbbbbbbbbbbbbbbbb", OwnerID := "cccccccccccccccccccccccccc",
    FileInfoID := "dddddddddddddddddddddddddd", DisplayName := "report", SortOrder := 0,
    LinkUrl := "", ImageUrl := "", Emoji := "", Type_ := ChannelBookmarkFile,
    OriginalID := "", ParentID := "", FileID := "dddddddddddddddddddddddddd",
    FileName := "report.pdf", Extension := "pdf", Size := 1024,
    MimeType := "application/pdf", Width := 0, Height := 0, HasPreviewImage := false,
    MiniPreview := none }

/-- The same join row with a present, empty thumbnail buffer. -/
def joinRowEmptyPreview : ChannelBookmarkAndFileInfo :=
  { joinRowNilPreview with MiniPreview := some [] }

/-- A bookmark as the insert-hook test builds it: id set, timestamps unset. -/
def unsavedBookmark : ChannelBookmark :=
  { linkBookmark with CreateAt := 0, UpdateAt := 0, Emoji := "" }

/-- A token builder to evaluate the fingerprints with: the parts, each after a
dot, appended to a version string. -/
def exampleEtag (id : String) (t delta n : Int) : String :=
  "10.0.0" ++ "." ++ id ++ "." ++ toString t ++ "." ++ toString delta ++ "." ++ toString n

/-- A channel list of two records; the second one holds the latest timestamp. -/
def twoChannels : ChannelList :=
  [{ ID := "bbbbbbbbbbbbbbbbbbbbbbbbbb", LastPostAt := 5, UpdateAt := 3 },
   { ID := "gggggggggggggggggggggggggg", LastPostAt := 5, UpdateAt := 7 }]

/-- The same two channels with team data; the first one holds the latest
timestamp, the update time of its team. -/
def twoTeamChannels : ChannelListWithTeamData :=
  [{ ID := "bbbbbbbbbbbbbbbbbbbbbbbbbb", LastPostAt := 5, UpdateAt := 3, TeamUpdateAt := 9 },
   { ID := "gggggggggggggggggggggggggg", LastPostAt := 5, UpdateAt := 7, TeamUpdateAt := 1 }]

/-! ### Audit snapshots of composites and update responses -/

/-- The assignment `a[k] = v` on a `map[string]any`: the entry of `k`, if there
is one, is replaced. -/
def mapSet (a : List (String × AuditValue)) (k : String) (v : AuditValue) :
    List (String × AuditValue) :=
  a.filter (fun e => e.1 != k) ++ [(k, v)]

/-- The method `(*ChannelBookmarkWithFileInfo).Auditable`.  The method
`(*FileInfo).Auditable` is declared outside the files at hand and is a
parameter. -/
def ChannelBookmarkWithFileInfo.Auditable
    (fileInfoAuditable : Model.FileInfo → List (String × AuditValue))
    (o : ChannelBookmarkWithFileInfo) : List (String × AuditValue) :=
  let a := o.ChannelBookmark.Auditable
  let a :=
    match o.FileInfo with
    | some f => mapSet a "file" (AuditValue.map (fileInfoAuditable f))
    | none => a
  a

/-- The record `UpdateChannelBookmarkResponse`. -/
structure UpdateChannelBookmarkResponse where
  Updated : Option ChannelBookmarkWithFileInfo
  Deleted : Option ChannelBookmarkWithFileInfo
deriving DecidableEq, Repr

/-- The method `(*UpdateChannelBookmarkResponse).Auditable`; both assignments
of the source use the key "updated". -/
def UpdateChannelBookmarkResponse.Auditable
    (fileInfoAuditable : FileInfo → List (String × AuditValue))
    (o : UpdateChannelBookmarkResponse) : List (String × AuditValue) :=
  let a : List (String × AuditValue) := []
  let a :=
    match o.Updated with
    | some u => mapSet a "updated" (AuditValue.map (u.Auditable fileInfoAuditable))
    | none => a
  let a :=
    match o.Deleted with
    | some d => mapSet a "updated" (AuditValue.map (d.Auditable fileInfoAuditable))
    | none => a
  a

/-- An audit snapshot of file metadata to evaluate the composites with. -/
def exampleFileInfoAuditable (f : FileInfo) : List (String × AuditValue) :=
  [("id", AuditValue.str f.ID), ("name", AuditValue.str f.Name),
   ("extension", AuditValue.str f.Extension), ("size", AuditValue.int f.Size)]

/-- An update response with both an updated and a deleted bookmark. -/
def updatedAndDeleted : UpdateChannelBookmarkResponse :=
  { Updated := some { ChannelBookmark := linkBookmark, FileInfo := none }
    Deleted := some { ChannelBookmark := fileBookmark, FileInfo := none } }

/-! ### Inputs for the fingerprint -/

/-- The token builder is injective in its four arguments. -/
def EtagInjective (Etag : String → Int → Int → Int → String) : Prop :=
  ∀ id t delta n id2 t2 delta2 n2,
    Etag id t delta n = Etag id2 t2 delta2 n2 → id = id2 ∧ t = t2 ∧ delta = delta2 ∧ n = n2

/-- An integer in unary, closed by a comma: `k` times the letter p when `k` is
positive, `-k` times the letter m when it is negative. -/
def encodeInt (k : Int) : List Char :=
  List.replicate k.toNat 'p' ++ List.replicate (-k).toNat 'm' ++ [',']

/-- A token builder that is injective in its arguments: the three numbers in
unary, then the identifier. -/
def unaryEtag (id : String) (t delta n : Int) : String :=
  String.mk (encodeInt t ++ (encodeInt delta ++ (encodeInt n ++ id.data)))

/-- A channel list of two records that both reach the timestamp 7; the first
one reaches it first. -/
def tiedChannels : ChannelList :=
  [{ ID := "bbbbbbbbbbbbbbbbbbbbbbbbbb", LastPostAt := 7, UpdateAt := 3 },
   { ID := "gggggggggggggggggggggggggg", LastPostAt := 5, UpdateAt := 7 }]

/-- Two channels with team data whose team-update times stay below their own
timestamps. -/
def quietTeamChannels : ChannelListWithTeamData :=
  [{ ID := "bbbbbbbbbbbbbbbbbbbbbbbbbb", LastPostAt := 5, UpdateAt := 3, TeamUpdateAt := 4 },
   { ID := "gggggggggggggggggggggggggg", LastPostAt := 5, UpdateAt := 7, TeamUpdateAt := 7 }]

/-! ## Theorems -/

/-- A chain link of a validator: `if c then some e else r` reports nothing exactly
when the check passes and the rest of the chain reports nothing. -/
theorem ite_some_eq_none_iff {α : Type} {c : Prop} [Decidable c] {e : α} {r : Option α} :
    (if c then some e else r) = none ↔ ¬ c ∧ r = none := by
  by_cases h : c <;> simp [h]

/-- `IsValid` reports nothing exactly when none of the fifteen failure conditions
of the source holds. -/
theorem IsValid_eq_none_iff (IsValidID IsValidHTTPURL : String → Bool) (o : ChannelBookmark) :
    IsValid IsValidID IsValidHTTPURL o = none ↔
      IsValidID o.ID = true ∧ o.CreateAt ≠ 0 ∧ o.UpdateAt ≠ 0 ∧
      IsValidID o.ChannelID = true ∧ IsValidID o.OwnerID = true ∧
      ¬ (o.DisplayName = "" ∨ RuneCountInString o.DisplayName > DisplayNameMaxRunes) ∧
      (o.Type_ = ChannelBookmarkFile ∨ o.Type_ = ChannelBookmarkLink) ∧
      ¬ (o.Type_ = ChannelBookmarkLink ∧ o.FileID ≠ "") ∧
      ¬ (o.Type_ = ChannelBookmarkFile ∧ o.LinkUrl ≠ "") ∧
      ¬ (o.Type_ = ChannelBookmarkLink ∧
          (o.LinkUrl = "" ∨ ¬ (IsValidHTTPURL o.LinkUrl = true) ∨
            RuneCountInString o.LinkUrl > LinkMaxRunes)) ∧
      ¬ (o.Type_ = ChannelBookmarkLink ∧ o.ImageUrl ≠ "" ∧
          (¬ (IsValidHTTPURL o.ImageUrl = true) ∨
            RuneCountInString o.ImageUrl > LinkMaxRunes)) ∧
      ¬ (o.Type_ = ChannelBookmarkFile ∧ (o.FileID = "" ∨ ¬ (IsValidID o.FileID = true))) ∧
      ¬ (o.ImageUrl ≠ "" ∧ o.FileID ≠ "") ∧
      ¬ (o.OriginalID ≠ "" ∧ ¬ (IsValidID o.OriginalID = true)) ∧
      ¬ (o.ParentID ≠ "" ∧ ¬ (IsValidID o.ParentID = true)) := by
  unfold IsValid
  simp only [ite_some_eq_none_iff, not_not, and_true]

theorem link_ne_file : ChannelBookmarkLink ≠ ChannelBookmarkFile := by decide

/-- C1: `IsValid` returns no violation exactly when every item of the invariant
set holds, for any identifier and URL predicates. -/
theorem IsValid_eq_none_iff_InvariantSet (IsValidID IsValidHTTPURL : String → Bool)
    (o : ChannelBookmark) :
    IsValid IsValidID IsValidHTTPURL o = none ↔ InvariantSet IsValidID IsValidHTTPURL o := by
  rw [IsValid_eq_none_iff]
  unfold InvariantSet
  have h64 : DisplayNameMaxRunes = 64 := rfl
  have h1024 : LinkMaxRunes = 1024 := rfl
  have hl : ChannelBookmarkLink = "link" := rfl
  have hf : ChannelBookmarkFile = "file" := rfl
  rw [← hl, ← hf, ← h64, ← h1024]
  generalize ChannelBookmarkLink = L at *
  generalize ChannelBookmarkFile = F at *
  simp only [gt_iff_lt, not_lt, not_or, not_and, not_not, ne_eq]
  constructor
  · rintro ⟨h1, h2, h3, h4, h5, h6, h7, h8, h9, h10, h11, h12, h13, h14, h15⟩
    exact ⟨⟨h1, h4, h5⟩, ⟨h2, h3⟩, h6, h7.symm,
      fun hL => ⟨h8 hL, h10 hL, or_iff_not_imp_left.mpr (h11 hL)⟩,
      fun hF => ⟨h9 hF, h12 hF⟩, h13, or_iff_not_imp_left.mpr h14,
      or_iff_not_imp_left.mpr h15⟩
  · rintro ⟨⟨h1, h4, h5⟩, ⟨h2, h3⟩, h6, h7, hL, hF, h13, h14, h15⟩
    exact ⟨h1, h2, h3, h4, h5, h6, h7.symm, fun h => (hL h).1, fun h => (hF h).1,
      fun h => (hL h).2.1, fun h hi => (hL h).2.2.resolve_left hi, fun h => (hF h).2, h13,
      fun h => h14.resolve_left h, fun h => h15.resolve_left h⟩

/-- A string has at least one rune exactly when it is not the empty string. -/
theorem one_le_RuneCountInString_iff (s : String) : 1 ≤ RuneCountInString s ↔ s ≠ "" := by
  obtain ⟨l⟩ := s
  cases l with
  | nil => simp [RuneCountInString, String.length]
  | cons a t =>
    have h : String.mk (a :: t) ≠ "" := by
      intro h
      have := congrArg String.data h
      simp at this
    simp [RuneCountInString, String.length, h]

/-- The kind-independent checks, in terms of the failure conditions of the source. -/
theorem KindIndependentChecks_iff (IsValidID : String → Bool) (o : ChannelBookmark) :
    KindIndependentChecks IsValidID o ↔
      IsValidID o.ID = true ∧ o.CreateAt ≠ 0 ∧ o.UpdateAt ≠ 0 ∧
      IsValidID o.ChannelID = true ∧ IsValidID o.OwnerID = true ∧
      ¬ (o.DisplayName = "" ∨ RuneCountInString o.DisplayName > DisplayNameMaxRunes) ∧
      ¬ (o.OriginalID ≠ "" ∧ ¬ (IsValidID o.OriginalID = true)) ∧
      ¬ (o.ParentID ≠ "" ∧ ¬ (IsValidID o.ParentID = true)) := by
  unfold KindIndependentChecks
  have h64 : DisplayNameMaxRunes = 64 := rfl
  rw [one_le_RuneCountInString_iff, ← h64]
  simp only [gt_iff_lt, not_lt, not_or, not_and, not_not, ne_eq]
  constructor
  · rintro ⟨⟨h1, h4, h5⟩, ⟨h2, h3⟩, h6, h14, h15⟩
    exact ⟨h1, h2, h3, h4, h5, h6, fun h => h14.resolve_left h, fun h => h15.resolve_left h⟩
  · rintro ⟨h1, h2, h3, h4, h5, h6, h14, h15⟩
    exact ⟨⟨h1, h4, h5⟩, ⟨h2, h3⟩, h6, or_iff_not_imp_left.mpr h14,
      or_iff_not_imp_left.mpr h15⟩

/-- C2 (as stated, refuted): the file bookmark `fileBookmarkWithImage` has kind
file, passes the kind-independent checks, has an empty linkUrl and a non-empty
valid fileId, and yet `IsValid` reports the imageUrl/fileId exclusivity
violation. -/
theorem IsValid_file_iff_counterexample :
    fileBookmarkWithImage.Type_ = ChannelBookmarkFile ∧
    KindIndependentChecks exampleIsValidID fileBookmarkWithImage ∧
    (fileBookmarkWithImage.LinkUrl = "" ∧ fileBookmarkWithImage.FileID ≠ "" ∧
      exampleIsValidID fileBookmarkWithImage.FileID = true) ∧
    IsValid exampleIsValidID exampleIsValidHTTPURL fileBookmarkWithImage =
      some (NewAppError "ChannelBookmark.IsValid"
        "model.channel_bookmark.is_valid.link_file.app_error" []
        "id=aaaaaaaaaaaaaaaaaaaaaaaaaa" StatusBadRequest) := by
  refine ⟨by decide, ?_, by decide, by decide⟩
  unfold KindIndependentChecks
  decide

/-- C2 (amended): for a record of kind file that passes the kind-independent
checks, `IsValid` returns no violation exactly when linkUrl is empty, fileId is
a non-empty valid identifier and imageUrl is empty. -/
theorem IsValid_file_iff (IsValidID IsValidHTTPURL : String → Bool) (o : ChannelBookmark)
    (hkind : o.Type_ = ChannelBookmarkFile) (hcommon : KindIndependentChecks IsValidID o) :
    IsValid IsValidID IsValidHTTPURL o = none ↔
      o.LinkUrl = "" ∧ (o.FileID ≠ "" ∧ IsValidID o.FileID = true) ∧ o.ImageUrl = "" := by
  rw [IsValid_eq_none_iff]
  rw [KindIndependentChecks_iff] at hcommon
  obtain ⟨h1, h2, h3, h4, h5, h6, h14, h15⟩ := hcommon
  have hL : ¬ (o.Type_ = ChannelBookmarkLink) := by
    rw [hkind]; exact fun h => link_ne_file h.symm
  simp only [gt_iff_lt, not_lt, not_or, not_and, not_not, ne_eq] at *
  constructor
  · rintro ⟨-, -, -, -, -, -, -, -, h9, -, -, h12, h13, -, -⟩
    refine ⟨h9 hkind, h12 hkind, ?_⟩
    by_contra hi
    exact (h12 hkind).1 (h13 hi)
  · rintro ⟨hl, hf, hi⟩
    exact ⟨h1, h2, h3, h4, h5, h6, Or.inl hkind, fun h => absurd h hL, fun _ => hl,
      fun h => absurd h hL, fun h => absurd h hL, fun _ => hf, fun h => absurd hi h,
      h14, h15⟩

/-- Witness of C2 (amended) at the valid file bookmark `fileBookmark`. -/
theorem IsValid_file_iff_witness :
    fileBookmark.Type_ = ChannelBookmarkFile ∧
    KindIndependentChecks exampleIsValidID fileBookmark ∧
    (IsValid exampleIsValidID exampleIsValidHTTPURL fileBookmark = none ↔
      fileBookmark.LinkUrl = "" ∧
        (fileBookmark.FileID ≠ "" ∧ exampleIsValidID fileBookmark.FileID = true) ∧
        fileBookmark.ImageUrl = "") :=
  ⟨by decide, by unfold KindIndependentChecks; decide,
    IsValid_file_iff exampleIsValidID exampleIsValidHTTPURL fileBookmark (by decide)
      (by unfold KindIndependentChecks; decide)⟩

/-- C3: for a record of kind link that passes the kind-independent checks,
`IsValid` returns no violation exactly when fileId is empty, linkUrl is
non-empty, a valid URL and at most 1024 runes long, and imageUrl is empty or a
valid URL of at most 1024 runes. -/
theorem IsValid_link_iff (IsValidID IsValidHTTPURL : String → Bool) (o : ChannelBookmark)
    (hkind : o.Type_ = ChannelBookmarkLink) (hcommon : KindIndependentChecks IsValidID o) :
    IsValid IsValidID IsValidHTTPURL o = none ↔
      o.FileID = "" ∧
      (o.LinkUrl ≠ "" ∧ IsValidHTTPURL o.LinkUrl = true ∧ RuneCountInString o.LinkUrl ≤ 1024) ∧
      (o.ImageUrl = "" ∨
        (IsValidHTTPURL o.ImageUrl = true ∧ RuneCountInString o.ImageUrl ≤ 1024)) := by
  rw [IsValid_eq_none_iff]
  rw [KindIndependentChecks_iff] at hcommon
  obtain ⟨h1, h2, h3, h4, h5, h6, h14, h15⟩ := hcommon
  have hF : ¬ (o.Type_ = ChannelBookmarkFile) := by
    rw [hkind]; exact link_ne_file
  have h1024 : LinkMaxRunes = 1024 := rfl
  rw [← h1024]
  simp only [gt_iff_lt, not_lt, not_or, not_and, not_not, ne_eq] at *
  constructor
  · rintro ⟨-, -, -, -, -, -, -, h8, -, h10, h11, -, -, -, -⟩
    exact ⟨h8 hkind, h10 hkind, or_iff_not_imp_left.mpr (h11 hkind)⟩
  · rintro ⟨hf, hl, hi⟩
    exact ⟨h1, h2, h3, h4, h5, h6, Or.inr hkind, fun _ => hf, fun h => absurd h hF,
      fun _ => hl, fun _ h => hi.resolve_left h, fun h => absurd h hF, fun _ => hf,
      h14, h15⟩

/-- Witness of C3 at the valid link bookmark `linkBookmark`. -/
theorem IsValid_link_iff_witness :
    linkBookmark.Type_ = ChannelBookmarkLink ∧
    KindIndependentChecks exampleIsValidID linkBookmark ∧
    (IsValid exampleIsValidID exampleIsValidHTTPURL linkBookmark = none ↔
      linkBookmark.FileID = "" ∧
      (linkBookmark.LinkUrl ≠ "" ∧ exampleIsValidHTTPURL linkBookmark.LinkUrl = true ∧
        RuneCountInString linkBookmark.LinkUrl ≤ 1024) ∧
      (linkBookmark.ImageUrl = "" ∨
        (exampleIsValidHTTPURL linkBookmark.ImageUrl = true ∧
          RuneCountInString linkBookmark.ImageUrl ≤ 1024))) :=
  ⟨by decide, by unfold KindIndependentChecks; decide,
    IsValid_link_iff exampleIsValidID exampleIsValidHTTPURL linkBookmark (by decide)
      (by unfold KindIndependentChecks; decide)⟩

/-- The invariant set is its display-name item together with the other items. -/
theorem InvariantSet_iff_displayName_and_others (IsValidID IsValidHTTPURL : String → Bool)
    (o : ChannelBookmark) :
    InvariantSet IsValidID IsValidHTTPURL o ↔
      (o.DisplayName ≠ "" ∧ RuneCountInString o.DisplayName ≤ 64) ∧
        InvariantsOtherThanDisplayName IsValidID IsValidHTTPURL o := by
  unfold InvariantSet InvariantsOtherThanDisplayName
  constructor
  · rintro ⟨a, b, c, d⟩
    exact ⟨c, a, b, d⟩
  · rintro ⟨c, a, b, d⟩
    exact ⟨a, b, c, d⟩

/-- C4: a record whose imageUrl and fileId are both non-empty is rejected by
`IsValid`, whatever its kind and its other fields; in particular a file
bookmark with a valid fileId, an empty linkUrl and a non-empty imageUrl is
rejected. -/
theorem IsValid_rejects_image_with_file (IsValidID IsValidHTTPURL : String → Bool)
    (o : ChannelBookmark) :
    (o.ImageUrl ≠ "" → o.FileID ≠ "" → ∃ e, IsValid IsValidID IsValidHTTPURL o = some e) ∧
    (o.Type_ = ChannelBookmarkFile → IsValidID o.FileID = true → o.LinkUrl = "" →
      o.ImageUrl ≠ "" → ∃ e, IsValid IsValidID IsValidHTTPURL o = some e) := by
  have key : (o.ImageUrl ≠ "" → o.FileID ≠ "" →
      ∃ e, IsValid IsValidID IsValidHTTPURL o = some e) := by
    intro hi hf
    cases h : IsValid IsValidID IsValidHTTPURL o with
    | some e => exact ⟨e, rfl⟩
    | none =>
      rw [IsValid_eq_none_iff] at h
      exact absurd ⟨hi, hf⟩ h.2.2.2.2.2.2.2.2.2.2.2.2.1
  refine ⟨key, ?_⟩
  intro hkind _ _ hi
  by_cases hf : o.FileID = ""
  · cases h : IsValid IsValidID IsValidHTTPURL o with
    | some e => exact ⟨e, rfl⟩
    | none =>
      rw [IsValid_eq_none_iff] at h
      exact absurd ⟨hkind, Or.inl hf⟩ h.2.2.2.2.2.2.2.2.2.2.2.1
  · exact key hi hf

/-- Witness of C4 at the file bookmark `fileBookmarkWithImage`, which has a valid
fileId, an empty linkUrl and a non-empty imageUrl. -/
theorem IsValid_rejects_image_with_file_witness :
    (fileBookmarkWithImage.ImageUrl ≠ "" ∧ fileBookmarkWithImage.FileID ≠ "" ∧
      ∃ e, IsValid exampleIsValidID exampleIsValidHTTPURL fileBookmarkWithImage = some e) ∧
    (fileBookmarkWithImage.Type_ = ChannelBookmarkFile ∧
      exampleIsValidID fileBookmarkWithImage.FileID = true ∧
      fileBookmarkWithImage.LinkUrl = "" ∧
      ∃ e, IsValid exampleIsValidID exampleIsValidHTTPURL fileBookmarkWithImage = some e) :=
  ⟨⟨by decide, by decide,
      (IsValid_rejects_image_with_file exampleIsValidID exampleIsValidHTTPURL
        fileBookmarkWithImage).1 (by decide) (by decide)⟩,
    ⟨by decide, by decide, by decide,
      (IsValid_rejects_image_with_file exampleIsValidID exampleIsValidHTTPURL
        fileBookmarkWithImage).2 (by decide) (by decide) (by decide) (by decide)⟩⟩

/-- C5: a record whose displayName has 65 or more runes is rejected by `IsValid`
whatever its other fields, and a record whose displayName has exactly 64 runes
and which satisfies the other items of the invariant set is accepted. -/
theorem IsValid_displayName_boundary (IsValidID IsValidHTTPURL : String → Bool)
    (o : ChannelBookmark) :
    (65 ≤ RuneCountInString o.DisplayName →
      ∃ e, IsValid IsValidID IsValidHTTPURL o = some e) ∧
    (RuneCountInString o.DisplayName = 64 →
      InvariantsOtherThanDisplayName IsValidID IsValidHTTPURL o →
      IsValid IsValidID IsValidHTTPURL o = none) := by
  constructor
  · intro h65
    cases h : IsValid IsValidID IsValidHTTPURL o with
    | some e => exact ⟨e, rfl⟩
    | none =>
      rw [IsValid_eq_none_iff] at h
      have h6 := h.2.2.2.2.2.1
      have h64 : DisplayNameMaxRunes = 64 := rfl
      rw [h64] at h6
      exact absurd (Or.inr (by omega)) h6
  · intro h64 hother
    rw [IsValid_eq_none_iff]
    unfold InvariantsOtherThanDisplayName at hother
    have hmax : DisplayNameMaxRunes = 64 := rfl
    have h1024 : LinkMaxRunes = 1024 := rfl
    have hl : ChannelBookmarkLink = "link" := rfl
    have hf : ChannelBookmarkFile = "file" := rfl
    have hne : o.DisplayName ≠ "" := by
      rw [← one_le_RuneCountInString_iff]
      omega
    rw [← hl, ← hf, ← h1024] at hother
    rw [hmax]
    obtain ⟨⟨h1, h4, h5⟩, ⟨h2, h3⟩, h7, hL, hF, h13, h14, h15⟩ := hother
    simp only [gt_iff_lt, not_lt, not_or, not_and, not_not, ne_eq] at *
    exact ⟨h1, h2, h3, h4, h5, ⟨hne, by omega⟩, h7.symm, fun h => (hL h).1,
      fun h => (hF h).1, fun h => (hL h).2.1, fun h hi => (hL h).2.2.resolve_left hi,
      fun h => (hF h).2, h13, fun h => h14.resolve_left h, fun h => h15.resolve_left h⟩

/-- Witness of C5: a link bookmark with a 65-rune displayName is rejected, and
the same bookmark with a displayName of 64 two-byte runes (128 bytes) is
accepted. -/
theorem IsValid_displayName_boundary_witness :
    (65 ≤ RuneCountInString displayName65 ∧
      ∃ e, IsValid exampleIsValidID exampleIsValidHTTPURL
        { linkBookmark with DisplayName := displayName65 } = some e) ∧
    (RuneCountInString displayName64 = 64 ∧ displayName64.utf8ByteSize = 128 ∧
      InvariantsOtherThanDisplayName exampleIsValidID exampleIsValidHTTPURL
        { linkBookmark with DisplayName := displayName64 } ∧
      IsValid exampleIsValidID exampleIsValidHTTPURL
        { linkBookmark with DisplayName := displayName64 } = none) :=
  ⟨⟨by decide,
      (IsValid_displayName_boundary exampleIsValidID exampleIsValidHTTPURL
        { linkBookmark with DisplayName := displayName65 }).1 (by decide)⟩,
    ⟨by decide, by decide, by unfold InvariantsOtherThanDisplayName; decide,
      (IsValid_displayName_boundary exampleIsValidID exampleIsValidHTTPURL
        { linkBookmark with DisplayName := displayName64 }).2 (by decide)
        (by unfold InvariantsOtherThanDisplayName; decide)⟩⟩

theorem firstViolation_nil (o : ChannelBookmark) : firstViolation [] o = none := rfl

/-- The first violation of a non-empty list of checks: that of the head when the
head fails, otherwise the first violation of the tail. -/
theorem firstViolation_cons (c : Check) (cs : List Check) (o : ChannelBookmark) :
    firstViolation (c :: cs) o =
      if c.fails o = true then some (c.violation o) else firstViolation cs o := by
  unfold firstViolation
  cases h : c.fails o <;> simp [List.find?, h]

/-- C6 (as stated, refuted): for the record `badChannelNoCreateAt`, with a valid
id, an invalid channelId and createAt == 0, the first failing check in the
listed order is the channel-id check, but `IsValid` reports the create-at
violation. -/
theorem IsValid_listed_order_counterexample :
    firstViolation (listedOrderChecks exampleIsValidID exampleIsValidHTTPURL)
        badChannelNoCreateAt =
      some (NewAppError "ChannelBookmark.IsValid"
        "model.channel_bookmark.is_valid.channel_id.app_error" [] "" StatusBadRequest) ∧
    IsValid exampleIsValidID exampleIsValidHTTPURL badChannelNoCreateAt =
      some (NewAppError "ChannelBookmark.IsValid"
        "model.channel_bookmark.is_valid.create_at.app_error" []
        "id=aaaaaaaaaaaaaaaaaaaaaaaaaa" StatusBadRequest) ∧
    IsValid exampleIsValidID exampleIsValidHTTPURL badChannelNoCreateAt ≠
      firstViolation (listedOrderChecks exampleIsValidID exampleIsValidHTTPURL)
        badChannelNoCreateAt := by
  refine ⟨by decide, by decide, by decide⟩

/-- C6 (amended): `IsValid` returns the violation of the first failing check in
the order id, createAt, updateAt, channelId, ownerId, displayName, kind, link
rules, file rules, imageUrl/fileId exclusivity, originalId, parentId, and no
violation when no check fails. -/
theorem IsValid_eq_firstViolation (IsValidID IsValidHTTPURL : String → Bool)
    (o : ChannelBookmark) :
    IsValid IsValidID IsValidHTTPURL o =
      firstViolation (timestampsFirstChecks IsValidID IsValidHTTPURL) o := by
  simp only [timestampsFirstChecks, firstViolation_cons, firstViolation_nil, checkID,
    checkCreateAt, checkUpdateAt, checkChannelID, checkOwnerID, checkDisplayName, checkType,
    checkLinkFileID, checkLinkLinkUrl, checkLinkImageUrl, checkFileLinkUrl, checkFileFileID,
    checkLinkFile, checkOriginalID, checkParentID, decide_eq_true_eq, Bool.not_eq_true']
  unfold IsValid
  simp only [Bool.not_eq_true]
  by_cases hL : o.Type_ = ChannelBookmarkLink
  · have hF : ¬ (o.Type_ = ChannelBookmarkFile) := by
      rw [hL]; exact link_ne_file
    simp only [hF, false_and, if_false]
  · simp only [hL, false_and, if_false]

/-- C7: `SetOriginal` returns a record with an empty id, createAt, updateAt and
deleteAt equal to 0, originalId equal to the receiver's id, ownerId equal to
`newOwnerID`, and every other field equal to the receiver's; the receiver is
unchanged. -/
theorem SetOriginal_fields (r : ChannelBookmark) (newOwnerID : String) :
    (SetOriginal r newOwnerID).2.ID = "" ∧
    (SetOriginal r newOwnerID).2.CreateAt = 0 ∧
    (SetOriginal r newOwnerID).2.UpdateAt = 0 ∧
    (SetOriginal r newOwnerID).2.DeleteAt = 0 ∧
    (SetOriginal r newOwnerID).2.OriginalID = r.ID ∧
    (SetOriginal r newOwnerID).2.OwnerID = newOwnerID ∧
    (SetOriginal r newOwnerID).2.ChannelID = r.ChannelID ∧
    (SetOriginal r newOwnerID).2.FileID = r.FileID ∧
    (SetOriginal r newOwnerID).2.DisplayName = r.DisplayName ∧
    (SetOriginal r newOwnerID).2.SortOrder = r.SortOrder ∧
    (SetOriginal r newOwnerID).2.LinkUrl = r.LinkUrl ∧
    (SetOriginal r newOwnerID).2.ImageUrl = r.ImageUrl ∧
    (SetOriginal r newOwnerID).2.Emoji = r.Emoji ∧
    (SetOriginal r newOwnerID).2.Type_ = r.Type_ ∧
    (SetOriginal r newOwnerID).2.ParentID = r.ParentID ∧
    (SetOriginal r newOwnerID).1 = r :=
  ⟨rfl, rfl, rfl, rfl, rfl, rfl, rfl, rfl, rfl, rfl, rfl, rfl, rfl, rfl, rfl, rfl⟩

/-- C8 (as stated, refuted): forking `linkBookmark`, whose emoji is ":smile:",
and running `PreSave` on the fork with a generated id different from the id of
the source gives a record whose emoji is "smile", not the emoji of the source. -/
theorem SetOriginal_PreSave_counterexample :
    "eeeeeeeeeeeeeeeeeeeeeeeeee" ≠ linkBookmark.ID ∧
    linkBookmark.Emoji = ":smile:" ∧
    (PreSave exampleSanitizeUnicode "eeeeeeeeeeeeeeeeeeeeeeeeee" 1700000000000
      (SetOriginal linkBookmark "ffffffffffffffffffffffffff").2).Emoji = "smile" ∧
    (PreSave exampleSanitizeUnicode "eeeeeeeeeeeeeeeeeeeeeeeeee" 1700000000000
      (SetOriginal linkBookmark "ffffffffffffffffffffffffff").2).Emoji ≠
        linkBookmark.Emoji := by
  refine ⟨by decide, by decide, by decide, by decide⟩

/-- C8 (amended): forking `r` to `owner2` and then running `PreSave`, with the id
generator returning an id different from `r.ID`, gives a record whose id is the
generated one and differs from `r.ID`, whose originalId is `r.ID`, whose ownerId
is `owner2`, whose displayName is the sanitized displayName of `r`, whose emoji
is the emoji of `r` without leading and trailing colons, and whose channelId,
fileId, sortOrder, linkUrl, imageUrl, kind and parentId are those of `r`. -/
theorem SetOriginal_PreSave_fields (SanitizeUnicode : String → String) (newID : String)
    (millis : Int) (r : ChannelBookmark) (owner2 : String) (hid : newID ≠ r.ID) :
    (PreSave SanitizeUnicode newID millis (SetOriginal r owner2).2).ID = newID ∧
    (PreSave SanitizeUnicode newID millis (SetOriginal r owner2).2).ID ≠ r.ID ∧
    (PreSave SanitizeUnicode newID millis (SetOriginal r owner2).2).OriginalID = r.ID ∧
    (PreSave SanitizeUnicode newID millis (SetOriginal r owner2).2).OwnerID = owner2 ∧
    (PreSave SanitizeUnicode newID millis (SetOriginal r owner2).2).DisplayName =
      SanitizeUnicode r.DisplayName ∧
    (PreSave SanitizeUnicode newID millis (SetOriginal r owner2).2).Emoji =
      stringsTrim r.Emoji ":" ∧
    (PreSave SanitizeUnicode newID millis (SetOriginal r owner2).2).ChannelID = r.ChannelID ∧
    (PreSave SanitizeUnicode newID millis (SetOriginal r owner2).2).FileID = r.FileID ∧
    (PreSave SanitizeUnicode newID millis (SetOriginal r owner2).2).SortOrder = r.SortOrder ∧
    (PreSave SanitizeUnicode newID millis (SetOriginal r owner2).2).LinkUrl = r.LinkUrl ∧
    (PreSave SanitizeUnicode newID millis (SetOriginal r owner2).2).ImageUrl = r.ImageUrl ∧
    (PreSave SanitizeUnicode newID millis (SetOriginal r owner2).2).Type_ = r.Type_ ∧
    (PreSave SanitizeUnicode newID millis (SetOriginal r owner2).2).ParentID = r.ParentID := by
  have hID : (PreSave SanitizeUnicode newID millis (SetOriginal r owner2).2).ID = newID := by
    simp [PreSave, SetOriginal]
  refine ⟨hID, by rw [hID]; exact hid, ?_, ?_, ?_, ?_, ?_, ?_, ?_, ?_, ?_, ?_, ?_⟩ <;>
    simp [PreSave, SetOriginal]

/-- Witness of C8 (amended) at `linkBookmark`. -/
theorem SetOriginal_PreSave_fields_witness :
    "eeeeeeeeeeeeeeeeeeeeeeeeee" ≠ linkBookmark.ID ∧
    (PreSave exampleSanitizeUnicode "eeeeeeeeeeeeeeeeeeeeeeeeee" 1700000000000
      (SetOriginal linkBookmark "ffffffffffffffffffffffffff").2).ID ≠ linkBookmark.ID ∧
    (PreSave exampleSanitizeUnicode "eeeeeeeeeeeeeeeeeeeeeeeeee" 1700000000000
      (SetOriginal linkBookmark "ffffffffffffffffffffffffff").2).OriginalID =
        linkBookmark.ID :=
  ⟨by decide,
    (SetOriginal_PreSave_fields exampleSanitizeUnicode "eeeeeeeeeeeeeeeeeeeeeeeeee"
      1700000000000 linkBookmark "ffffffffffffffffffffffffff" (by decide)).2.1,
    (SetOriginal_PreSave_fields exampleSanitizeUnicode "eeeeeeeeeeeeeeeeeeeeeeeeee"
      1700000000000 linkBookmark "ffffffffffffffffffffffffff" (by decide)).2.2.1⟩

/-- C9: after `Patch` each of the six patchable fields is the value the patch
supplies when it supplies one and the previous value otherwise; a patch that
supplies only displayName leaves fileId, sortOrder, linkUrl, imageUrl and emoji
as they were, and a patch that supplies nothing leaves the record as it was. -/
theorem Patch_patchable_fields (o : ChannelBookmark) (patch : ChannelBookmarkPatch)
    (name : String) :
    ((Patch o patch).FileID = patch.FileID.getD o.FileID ∧
      (Patch o patch).DisplayName = patch.DisplayName.getD o.DisplayName ∧
      (Patch o patch).SortOrder = patch.SortOrder.getD o.SortOrder ∧
      (Patch o patch).LinkUrl = patch.LinkUrl.getD o.LinkUrl ∧
      (Patch o patch).ImageUrl = patch.ImageUrl.getD o.ImageUrl ∧
      (Patch o patch).Emoji = patch.Emoji.getD o.Emoji) ∧
    Patch o { FileID := none, DisplayName := some name, SortOrder := none, LinkUrl := none,
              ImageUrl := none, Emoji := none } = { o with DisplayName := name } ∧
    Patch o { FileID := none, DisplayName := none, SortOrder := none, LinkUrl := none,
              ImageUrl := none, Emoji := none } = o := by
  refine ⟨?_, rfl, rfl⟩
  obtain ⟨f, d, so, l, i, e⟩ := patch
  cases f <;> cases d <;> cases so <;> cases l <;> cases i <;> cases e <;>
    exact ⟨rfl, rfl, rfl, rfl, rfl, rfl⟩

/-- C10: `Patch` changes neither the kind nor any of id, createAt, updateAt,
deleteAt, channelId, ownerId, originalId and parentId. -/
theorem Patch_frame (o : ChannelBookmark) (patch : ChannelBookmarkPatch) :
    (Patch o patch).Type_ = o.Type_ ∧
    (Patch o patch).ID = o.ID ∧
    (Patch o patch).CreateAt = o.CreateAt ∧
    (Patch o patch).UpdateAt = o.UpdateAt ∧
    (Patch o patch).DeleteAt = o.DeleteAt ∧
    (Patch o patch).ChannelID = o.ChannelID ∧
    (Patch o patch).OwnerID = o.OwnerID ∧
    (Patch o patch).OriginalID = o.OriginalID ∧
    (Patch o patch).ParentID = o.ParentID := by
  obtain ⟨f, d, so, l, i, e⟩ := patch
  cases f <;> cases d <;> cases so <;> cases l <;> cases i <;> cases e <;>
    exact ⟨rfl, rfl, rfl, rfl, rfl, rfl, rfl, rfl, rfl⟩

/-- The validator does not read `SortOrder`. -/
theorem IsValid_SortOrder_irrelevant (IsValidID IsValidHTTPURL : String → Bool)
    (o : ChannelBookmark) (v : Int) :
    IsValid IsValidID IsValidHTTPURL { o with SortOrder := v } =
      IsValid IsValidID IsValidHTTPURL o := rfl

/-- C11: for a record that `IsValid` accepts and a patch that supplies only
sortOrder, with any value `v`, the patched record has sortOrder `v`, the
linkUrl it had, and is still accepted by `IsValid`. -/
theorem Patch_sortOrder_keeps_valid (IsValidID IsValidHTTPURL : String → Bool)
    (o : ChannelBookmark) (v : Int) (hvalid : IsValid IsValidID IsValidHTTPURL o = none) :
    (Patch o { FileID := none, DisplayName := none, SortOrder := some v, LinkUrl := none,
               ImageUrl := none, Emoji := none }).SortOrder = v ∧
    (Patch o { FileID := none, DisplayName := none, SortOrder := some v, LinkUrl := none,
               ImageUrl := none, Emoji := none }).LinkUrl = o.LinkUrl ∧
    IsValid IsValidID IsValidHTTPURL
      (Patch o { FileID := none, DisplayName := none, SortOrder := some v, LinkUrl := none,
                 ImageUrl := none, Emoji := none }) = none := by
  have hp : Patch o { FileID := none, DisplayName := none, SortOrder := some v,
                      LinkUrl := none, ImageUrl := none, Emoji := none } =
      { o with SortOrder := v } := rfl
  rw [hp]
  exact ⟨rfl, rfl, (IsValid_SortOrder_irrelevant IsValidID IsValidHTTPURL o v).trans hvalid⟩

/-- Witness of C11: the link bookmark "Docs" with linkUrl "https://example.com"
is valid, and patched with sortOrder 5 only it has sortOrder 5, the same
linkUrl, and is still valid. -/
theorem Patch_sortOrder_keeps_valid_witness :
    IsValid exampleIsValidID exampleIsValidHTTPURL linkBookmark = none ∧
    (Patch linkBookmark { FileID := none, DisplayName := none, SortOrder := some 5,
                          LinkUrl := none, ImageUrl := none, Emoji := none }).SortOrder = 5 ∧
    (Patch linkBookmark { FileID := none, DisplayName := none, SortOrder := some 5,
                          LinkUrl := none, ImageUrl := none, Emoji := none }).LinkUrl =
      "https://example.com" ∧
    IsValid exampleIsValidID exampleIsValidHTTPURL
      (Patch linkBookmark { FileID := none, DisplayName := none, SortOrder := some 5,
                            LinkUrl := none, ImageUrl := none, Emoji := none }) = none :=
  ⟨by decide,
    Patch_sortOrder_keeps_valid exampleIsValidID exampleIsValidHTTPURL linkBookmark 5
      (by decide)⟩

/-! ### Trimming -/

/-- The characters of the cut set ":" are the colon alone. -/
theorem contains_colon_iff (c : Char) : (":".data.contains c) = true ↔ c = ':' := by
  have h : ":".data = [':'] := rfl
  rw [h]
  simp

/-- The characters of a trimmed string: the characters of the string without
the leading and then without the trailing characters of the cut set. -/
theorem stringsTrim_data (s cutset : String) :
    (stringsTrim s cutset).data =
      List.rdropWhile (fun c => cutset.data.contains c)
        (List.dropWhile (fun c => cutset.data.contains c) s.data) := rfl

/-- Dropping on both sides removes a wrapping made of characters that satisfy
`p` from a list that neither begins nor ends with such a character. -/
theorem rdropWhile_dropWhile_wrap (p : Char → Bool) (l pre post : List Char)
    (hpre : ∀ c ∈ pre, p c = true) (hpost : ∀ c ∈ post, p c = true)
    (hhead : ∀ c, l.head? = some c → p c = false)
    (hlast : ∀ c, l.getLast? = some c → p c = false) :
    List.rdropWhile p (List.dropWhile p (pre ++ l ++ post)) = l := by
  rw [List.append_assoc, List.dropWhile_append_of_pos hpre]
  cases l with
  | nil =>
    rw [List.nil_append, List.dropWhile_eq_nil_iff.mpr hpost]
    rfl
  | cons a t =>
    have ha : p a = false := hhead a rfl
    have h1 : List.dropWhile p (a :: t ++ post) = a :: t ++ post := by
      rw [List.cons_append, List.dropWhile_cons_of_neg (by simp [ha])]
    rw [h1]
    unfold List.rdropWhile
    rw [List.reverse_append,
      List.dropWhile_append_of_pos (fun c hc => hpost c (List.mem_reverse.mp hc))]
    have hl : (a :: t).reverse ≠ [] := by simp
    obtain ⟨b, u, hbu⟩ := List.exists_cons_of_ne_nil hl
    have hb : p b = false := by
      apply hlast b
      have : (a :: t) = (b :: u).reverse := by rw [← hbu, List.reverse_reverse]
      rw [this]
      simp
    rw [hbu, List.dropWhile_cons_of_neg (by simp [hb]), ← hbu, List.reverse_reverse]

/-- A trimmed list neither begins nor ends with a character that satisfies `p`. -/
theorem rdropWhile_dropWhile_ends (p : Char → Bool) (l : List Char) (c : Char)
    (hc : p c = true) :
    (List.rdropWhile p (List.dropWhile p l)).head? ≠ some c ∧
    (List.rdropWhile p (List.dropWhile p l)).getLast? ≠ some c := by
  constructor
  · intro h
    obtain ⟨t, ht⟩ : ∃ t, List.rdropWhile p (List.dropWhile p l) = c :: t := by
      cases hr : List.rdropWhile p (List.dropWhile p l) with
      | nil => rw [hr] at h; simp at h
      | cons a t => rw [hr] at h; simp at h; exact ⟨t, by rw [h]⟩
    obtain ⟨r, hr⟩ : ∃ r, List.dropWhile p l = c :: r := by
      have hpre := List.rdropWhile_prefix p (List.dropWhile p l)
      rw [ht] at hpre
      obtain ⟨r, hr⟩ := hpre
      exact ⟨t ++ r, by rw [← hr]; rfl⟩
    have hne : List.dropWhile p l ≠ [] := by rw [hr]; simp
    have hnot := List.head_dropWhile_not p l hne
    simp only [hr, List.head_cons] at hnot
    rw [hc] at hnot
    exact absurd hnot (by decide)
  · intro h
    have hne : List.rdropWhile p (List.dropWhile p l) ≠ [] := by
      intro h0
      rw [h0] at h
      simp at h
    have hnot := List.rdropWhile_last_not p (List.dropWhile p l) hne
    rw [List.getLast?_eq_getLast _ hne] at h
    have hceq : (List.rdropWhile p (List.dropWhile p l)).getLast hne = c := by
      simpa using h
    rw [hceq] at hnot
    exact hnot hc

/-- Trimming colons leaves a string that neither begins nor ends with a colon. -/
theorem stringsTrim_colon_ends (s : String) :
    ¬ beginsWith (stringsTrim s ":") ':' ∧ ¬ endsWith (stringsTrim s ":") ':' := by
  unfold beginsWith endsWith
  rw [stringsTrim_data]
  exact rdropWhile_dropWhile_ends _ s.data ':' ((contains_colon_iff ':').mpr rfl)

/-- Trimming colons from a string that neither begins nor ends with a colon,
wrapped in any number of leading and trailing colons, gives the string. -/
theorem stringsTrim_colon_wrap (s : String) (m n : Nat)
    (hb : ¬ beginsWith s ':') (he : ¬ endsWith s ':') :
    stringsTrim (colons m ++ s ++ colons n) ":" = s := by
  apply String.ext
  rw [stringsTrim_data]
  have hd : (colons m ++ s ++ colons n).data =
      List.replicate m ':' ++ s.data ++ List.replicate n ':' := by
    simp [colons, String.data_append]
  rw [hd]
  apply rdropWhile_dropWhile_wrap
  · intro c hc
    rw [(List.mem_replicate.mp hc).2]
    exact (contains_colon_iff ':').mpr rfl
  · intro c hc
    rw [(List.mem_replicate.mp hc).2]
    exact (contains_colon_iff ':').mpr rfl
  · intro c hc
    cases hcc : ":".data.contains c with
    | false => rfl
    | true =>
      rw [(contains_colon_iff c).mp hcc] at hc
      exact absurd hc hb
  · intro c hc
    cases hcc : ":".data.contains c with
    | false => rfl
    | true =>
      rw [(contains_colon_iff c).mp hcc] at hc
      exact absurd hc he

/-- Trimming colons does nothing to a string that neither begins nor ends with
a colon. -/
theorem stringsTrim_colon_of_clean (s : String)
    (hb : ¬ beginsWith s ':') (he : ¬ endsWith s ':') : stringsTrim s ":" = s := by
  have h := stringsTrim_colon_wrap s 0 0 hb he
  have h0 : colons 0 ++ s ++ colons 0 = s := by
    apply String.ext
    simp [colons, String.data_append]
  rw [h0] at h
  exact h

/-- A string without any colon neither begins nor ends with a colon. -/
theorem clean_of_colon_free (s : String) (h : ':' ∉ s.data) :
    ¬ beginsWith s ':' ∧ ¬ endsWith s ':' := by
  unfold beginsWith endsWith
  constructor
  · intro hh
    exact h (List.mem_of_mem_head? hh)
  · intro hl
    exact h (List.mem_of_getLast?_eq_some hl)

/-! ### Lifecycle hooks -/

/-- C12: after `PreSave` the id is the previous id when that was non-empty and
the generated id otherwise, createAt is the previous createAt when that was
non-zero and the clock reading otherwise, updateAt equals the resulting
createAt, displayName is the sanitized previous displayName, emoji is the
previous emoji trimmed of colons, and the other fields are unchanged.  For a
record with a non-empty id, a sanitized displayName and a colon-free emoji,
`PreSave` changes nothing except createAt and updateAt, and both are non-zero
afterwards when the clock is non-zero. -/
theorem PreSave_fields (SanitizeUnicode : String → String) (newID : String) (millis : Int)
    (o : ChannelBookmark) :
    ((PreSave SanitizeUnicode newID millis o).ID = (if o.ID = "" then newID else o.ID) ∧
      (PreSave SanitizeUnicode newID millis o).CreateAt =
        (if o.CreateAt = 0 then millis else o.CreateAt) ∧
      (PreSave SanitizeUnicode newID millis o).UpdateAt =
        (PreSave SanitizeUnicode newID millis o).CreateAt ∧
      (PreSave SanitizeUnicode newID millis o).DisplayName = SanitizeUnicode o.DisplayName ∧
      (PreSave SanitizeUnicode newID millis o).Emoji = stringsTrim o.Emoji ":") ∧
    ((PreSave SanitizeUnicode newID millis o).DeleteAt = o.DeleteAt ∧
      (PreSave SanitizeUnicode newID millis o).ChannelID = o.ChannelID ∧
      (PreSave SanitizeUnicode newID millis o).OwnerID = o.OwnerID ∧
      (PreSave SanitizeUnicode newID millis o).FileID = o.FileID ∧
      (PreSave SanitizeUnicode newID millis o).SortOrder = o.SortOrder ∧
      (PreSave SanitizeUnicode newID millis o).LinkUrl = o.LinkUrl ∧
      (PreSave SanitizeUnicode newID millis o).ImageUrl = o.ImageUrl ∧
      (PreSave SanitizeUnicode newID millis o).Type_ = o.Type_ ∧
      (PreSave SanitizeUnicode newID millis o).OriginalID = o.OriginalID ∧
      (PreSave SanitizeUnicode newID millis o).ParentID = o.ParentID) ∧
    (o.ID ≠ "" → SanitizeUnicode o.DisplayName = o.DisplayName → ':' ∉ o.Emoji.data →
      { PreSave SanitizeUnicode newID millis o with
          CreateAt := o.CreateAt, UpdateAt := o.UpdateAt } = o ∧
      (millis ≠ 0 →
        (PreSave SanitizeUnicode newID millis o).CreateAt ≠ 0 ∧
        (PreSave SanitizeUnicode newID millis o).UpdateAt ≠ 0)) := by
  refine ⟨?_, ?_, ?_⟩
  · by_cases hid : o.ID = "" <;> by_cases hc : o.CreateAt = 0 <;> simp [PreSave, hid, hc]
  · by_cases hid : o.ID = "" <;> by_cases hc : o.CreateAt = 0 <;> simp [PreSave, hid, hc]
  · intro hid hname hemoji
    have htrim : stringsTrim o.Emoji ":" = o.Emoji :=
      stringsTrim_colon_of_clean o.Emoji (clean_of_colon_free o.Emoji hemoji).1
        (clean_of_colon_free o.Emoji hemoji).2
    constructor
    · obtain ⟨i, ca, ua, da, ch, ow, fi, dn, so, lu, iu, em, ty, oi, pi⟩ := o
      simp only at hid hname htrim
      by_cases hc : ca = 0 <;> simp [PreSave, hid, hc, hname, htrim]
    · intro hm
      by_cases hc : o.CreateAt = 0 <;> simp [PreSave, hid, hc, hm]

/-- Witness of C12 at the bookmark of the insert-hook test: id set, timestamps
unset, clock at 1700000000000. -/
theorem PreSave_fields_witness :
    unsavedBookmark.ID ≠ "" ∧
    exampleSanitizeUnicode unsavedBookmark.DisplayName = unsavedBookmark.DisplayName ∧
    ':' ∉ unsavedBookmark.Emoji.data ∧
    { PreSave exampleSanitizeUnicode "eeeeeeeeeeeeeeeeeeeeeeeeee" 1700000000000
        unsavedBookmark with
        CreateAt := unsavedBookmark.CreateAt, UpdateAt := unsavedBookmark.UpdateAt } =
      unsavedBookmark ∧
    (PreSave exampleSanitizeUnicode "eeeeeeeeeeeeeeeeeeeeeeeeee" 1700000000000
      unsavedBookmark).CreateAt ≠ 0 ∧
    (PreSave exampleSanitizeUnicode "eeeeeeeeeeeeeeeeeeeeeeeeee" 1700000000000
      unsavedBookmark).UpdateAt ≠ 0 :=
  ⟨by decide, by decide, by decide,
    ((PreSave_fields exampleSanitizeUnicode "eeeeeeeeeeeeeeeeeeeeeeeeee" 1700000000000
      unsavedBookmark).2.2 (by decide) (by decide) (by decide)).1,
    ((PreSave_fields exampleSanitizeUnicode "eeeeeeeeeeeeeeeeeeeeeeeeee" 1700000000000
      unsavedBookmark).2.2 (by decide) (by decide) (by decide)).2 (by decide)⟩

/-- C13: after `PreUpdate` updateAt is the clock reading, hence greater than the
previous updateAt when the clock is later than it, displayName is the sanitized
previous displayName, emoji is the previous emoji trimmed of colons, and every
other field, id, createAt and deleteAt among them, is unchanged. -/
theorem PreUpdate_fields (SanitizeUnicode : String → String) (millis : Int)
    (o : ChannelBookmark) :
    ((PreUpdate SanitizeUnicode millis o).UpdateAt = millis ∧
      (o.UpdateAt < millis → o.UpdateAt < (PreUpdate SanitizeUnicode millis o).UpdateAt) ∧
      (PreUpdate SanitizeUnicode millis o).DisplayName = SanitizeUnicode o.DisplayName ∧
      (PreUpdate SanitizeUnicode millis o).Emoji = stringsTrim o.Emoji ":") ∧
    ((PreUpdate SanitizeUnicode millis o).ID = o.ID ∧
      (PreUpdate SanitizeUnicode millis o).CreateAt = o.CreateAt ∧
      (PreUpdate SanitizeUnicode millis o).DeleteAt = o.DeleteAt ∧
      (PreUpdate SanitizeUnicode millis o).ChannelID = o.ChannelID ∧
      (PreUpdate SanitizeUnicode millis o).OwnerID = o.OwnerID ∧
      (PreUpdate SanitizeUnicode millis o).FileID = o.FileID ∧
      (PreUpdate SanitizeUnicode millis o).SortOrder = o.SortOrder ∧
      (PreUpdate SanitizeUnicode millis o).LinkUrl = o.LinkUrl ∧
      (PreUpdate SanitizeUnicode millis o).ImageUrl = o.ImageUrl ∧
      (PreUpdate SanitizeUnicode millis o).Type_ = o.Type_ ∧
      (PreUpdate SanitizeUnicode millis o).OriginalID = o.OriginalID ∧
      (PreUpdate SanitizeUnicode millis o).ParentID = o.ParentID) :=
  ⟨⟨rfl, fun h => h, rfl, rfl⟩, ⟨rfl, rfl, rfl, rfl, rfl, rfl, rfl, rfl, rfl, rfl, rfl, rfl⟩⟩

/-- Witness of C13: updating `linkBookmark`, last updated at 3, with the clock at
1700000000000 moves updateAt forward and trims the emoji. -/
theorem PreUpdate_fields_witness :
    linkBookmark.UpdateAt < 1700000000000 ∧
    linkBookmark.UpdateAt <
      (PreUpdate exampleSanitizeUnicode 1700000000000 linkBookmark).UpdateAt ∧
    (PreUpdate exampleSanitizeUnicode 1700000000000 linkBookmark).Emoji = "smile" :=
  ⟨by decide,
    (PreUpdate_fields exampleSanitizeUnicode 1700000000000 linkBookmark).1.2.1 (by decide),
    (PreUpdate_fields exampleSanitizeUnicode 1700000000000 linkBookmark).1.2.2.2.trans
      (by decide)⟩

/-- C14: `PreSave`, `PreUpdate` and `ToBookmarkWithFileInfo` each store the emoji
they are given with its leading and trailing colons stripped, and that
normalization is idempotent: as a function, and when any of the three methods
is run on its own result.  Through each of the three methods ":smile:" is
stored as "smile", and running the method again on the result stores "smile"
again; `ToBookmarkWithFileInfo` stores "smile" as "smile" and the empty emoji
as the empty emoji. -/
theorem stringsTrim_colon_idempotent (e : String) (SanitizeUnicode : String → String)
    (newID newID2 : String) (millis millis2 : Int) (o : ChannelBookmark)
    (f f2 : Option FileInfo) :
    stringsTrim (stringsTrim e ":") ":" = stringsTrim e ":" ∧
    (PreSave SanitizeUnicode newID2 millis2 (PreSave SanitizeUnicode newID millis o)).Emoji =
      (PreSave SanitizeUnicode newID millis o).Emoji ∧
    (PreUpdate SanitizeUnicode millis2 (PreUpdate SanitizeUnicode millis o)).Emoji =
      (PreUpdate SanitizeUnicode millis o).Emoji ∧
    (ToBookmarkWithFileInfo
        (ToBookmarkWithFileInfo o f).2.ChannelBookmark f2).2.ChannelBookmark.Emoji =
      (ToBookmarkWithFileInfo o f).2.ChannelBookmark.Emoji ∧
    stringsTrim ":smile:" ":" = "smile" ∧
    stringsTrim (stringsTrim ":smile:" ":") ":" = "smile" ∧
    ((PreSave SanitizeUnicode newID millis { o with Emoji := e }).Emoji = stringsTrim e ":" ∧
      (PreUpdate SanitizeUnicode millis { o with Emoji := e }).Emoji = stringsTrim e ":" ∧
      (ToBookmarkWithFileInfo { o with Emoji := e } f).2.ChannelBookmark.Emoji =
        stringsTrim e ":") ∧
    ((PreSave SanitizeUnicode newID millis { o with Emoji := ":smile:" }).Emoji = "smile" ∧
      (PreSave SanitizeUnicode newID2 millis2
        (PreSave SanitizeUnicode newID millis { o with Emoji := ":smile:" })).Emoji =
          "smile") ∧
    ((PreUpdate SanitizeUnicode millis { o with Emoji := ":smile:" }).Emoji = "smile" ∧
      (PreUpdate SanitizeUnicode millis2
        (PreUpdate SanitizeUnicode millis { o with Emoji := ":smile:" })).Emoji = "smile") ∧
    ((ToBookmarkWithFileInfo { o with Emoji := ":smile:" } f).2.ChannelBookmark.Emoji =
        "smile" ∧
      (ToBookmarkWithFileInfo
        (ToBookmarkWithFileInfo { o with Emoji := ":smile:" } f).2.ChannelBookmark
        f2).2.ChannelBookmark.Emoji = "smile" ∧
      (ToBookmarkWithFileInfo { o with Emoji := "smile" } f).2.ChannelBookmark.Emoji =
        "smile" ∧
      (ToBookmarkWithFileInfo { o with Emoji := "" } f).2.ChannelBookmark.Emoji = "") := by
  have idem : ∀ s : String, stringsTrim (stringsTrim s ":") ":" = stringsTrim s ":" :=
    fun s => stringsTrim_colon_of_clean _ (stringsTrim_colon_ends s).1
      (stringsTrim_colon_ends s).2
  have hsave : ∀ (i : String) (m : Int) (b : ChannelBookmark),
      (PreSave SanitizeUnicode i m b).Emoji = stringsTrim b.Emoji ":" := by
    intro i m b
    by_cases hid : b.ID = "" <;> by_cases hc : b.CreateAt = 0 <;> simp [PreSave, hid, hc]
  have hupdate : ∀ (m : Int) (b : ChannelBookmark),
      (PreUpdate SanitizeUnicode m b).Emoji = stringsTrim b.Emoji ":" := fun _ _ => rfl
  have hcompose : ∀ (b : ChannelBookmark) (g : Option FileInfo),
      (ToBookmarkWithFileInfo b g).2.ChannelBookmark.Emoji = stringsTrim b.Emoji ":" := by
    intro b g
    cases g with
    | none => rfl
    | some fi => by_cases hfi : fi.ID = "" <;> simp [ToBookmarkWithFileInfo, hfi]
  have hsmile : stringsTrim ":smile:" ":" = "smile" := by decide
  have hsmile2 : stringsTrim (stringsTrim ":smile:" ":") ":" = "smile" := by decide
  have hplain : stringsTrim "smile" ":" = "smile" := by decide
  have hnone : stringsTrim "" ":" = "" := by decide
  refine ⟨idem e, ?_, ?_, ?_, hsmile, hsmile2, ⟨?_, ?_, ?_⟩, ⟨?_, ?_⟩, ⟨?_, ?_⟩,
    ⟨?_, ?_, ?_, ?_⟩⟩
  · rw [hsave, hsave]
    exact idem o.Emoji
  · exact idem o.Emoji
  · rw [hcompose, hcompose]
    exact idem o.Emoji
  · rw [hsave]
  · rw [hupdate]
  · rw [hcompose]
  · rw [hsave]
    exact hsmile
  · rw [hsave, hsave]
    exact hsmile2
  · rw [hupdate]
    exact hsmile
  · rw [hupdate, hupdate]
    exact hsmile2
  · rw [hcompose]
    exact hsmile
  · rw [hcompose, hcompose]
    exact hsmile2
  · rw [hcompose]
    exact hplain
  · rw [hcompose]
    exact hnone

/-- C15: after `PreSave` and after `PreUpdate` the emoji neither begins nor ends
with a colon; and an emoji `s` that neither begins nor ends with a colon,
supplied wrapped in `m` leading and `n` trailing colons, is stored as `s`, the
value stored when `s` itself is supplied. -/
theorem stored_emoji_has_no_colon_delimiters (SanitizeUnicode : String → String)
    (newID : String) (millis : Int) (o : ChannelBookmark) (s : String) (m n : Nat) :
    (¬ beginsWith (PreSave SanitizeUnicode newID millis o).Emoji ':' ∧
      ¬ endsWith (PreSave SanitizeUnicode newID millis o).Emoji ':') ∧
    (¬ beginsWith (PreUpdate SanitizeUnicode millis o).Emoji ':' ∧
      ¬ endsWith (PreUpdate SanitizeUnicode millis o).Emoji ':') ∧
    (¬ beginsWith s ':' → ¬ endsWith s ':' →
      (PreSave SanitizeUnicode newID millis
        { o with Emoji := colons m ++ s ++ colons n }).Emoji = s ∧
      (PreSave SanitizeUnicode newID millis { o with Emoji := s }).Emoji = s ∧
      (PreUpdate SanitizeUnicode millis
        { o with Emoji := colons m ++ s ++ colons n }).Emoji = s ∧
      (PreUpdate SanitizeUnicode millis { o with Emoji := s }).Emoji = s) := by
  have hsave : ∀ b : ChannelBookmark,
      (PreSave SanitizeUnicode newID millis b).Emoji = stringsTrim b.Emoji ":" := by
    intro b
    by_cases hid : b.ID = "" <;> by_cases hc : b.CreateAt = 0 <;> simp [PreSave, hid, hc]
  have hupdate : ∀ b : ChannelBookmark,
      (PreUpdate SanitizeUnicode millis b).Emoji = stringsTrim b.Emoji ":" := fun _ => rfl
  refine ⟨?_, ?_, ?_⟩
  · rw [hsave]
    exact stringsTrim_colon_ends o.Emoji
  · rw [hupdate]
    exact stringsTrim_colon_ends o.Emoji
  · intro hb he
    rw [hsave, hsave, hupdate, hupdate]
    exact ⟨stringsTrim_colon_wrap s m n hb he, stringsTrim_colon_of_clean s hb he,
      stringsTrim_colon_wrap s m n hb he, stringsTrim_colon_of_clean s hb he⟩

/-- Witness of C15: "smile" wrapped in two leading colons and one trailing colon
is stored as "smile". -/
theorem stored_emoji_has_no_colon_delimiters_witness :
    ¬ beginsWith "smile" ':' ∧ ¬ endsWith "smile" ':' ∧
    colons 2 ++ "smile" ++ colons 1 = "::smile:" ∧
    (PreSave exampleSanitizeUnicode "eeeeeeeeeeeeeeeeeeeeeeeeee" 1700000000000
      { linkBookmark with Emoji := colons 2 ++ "smile" ++ colons 1 }).Emoji = "smile" :=
  ⟨by unfold beginsWith; decide, by unfold endsWith; decide, by decide,
    ((stored_emoji_has_no_colon_delimiters exampleSanitizeUnicode
      "eeeeeeeeeeeeeeeeeeeeeeeeee" 1700000000000 linkBookmark "smile" 2 1).2.2
      (by unfold beginsWith; decide) (by unfold endsWith; decide)).1⟩

/-! ### Composition with file metadata -/

/-- C16: `ToBookmarkWithFileInfo` returns a composite whose bookmark is the
receiver with the emoji trimmed of colons, and whose file slot is the argument
when that is present with a non-empty id and is absent otherwise; the receiver
is unchanged. -/
theorem ToBookmarkWithFileInfo_spec (b : ChannelBookmark) (f : Option FileInfo) :
    (ToBookmarkWithFileInfo b f).2.ChannelBookmark =
      { b with Emoji := stringsTrim b.Emoji ":" } ∧
    (ToBookmarkWithFileInfo b f).2.FileInfo = f.filter (fun fi => decide (fi.ID ≠ "")) ∧
    (ToBookmarkWithFileInfo b f).1 = b := by
  cases f with
  | none => exact ⟨rfl, rfl, rfl⟩
  | some fi =>
    by_cases hfi : fi.ID = "" <;> simp [ToBookmarkWithFileInfo, Option.filter, hfi]

/-- C17: `ToChannelBookmarkWithFileInfo` returns unless both file identifiers are
non-empty and the thumbnail buffer is nil.  When it returns, the bookmark of the
composite carries the bookmark columns of the row, with `FileID` taken from
`FileInfoID`; a file-metadata record is attached exactly when `FileInfoID` and
`FileID` are both non-empty; the attached record has the file columns of the
row, no thumbnail when the buffer of the row is present and empty, and the
buffer of the row when that is non-empty. -/
theorem ToChannelBookmarkWithFileInfo_spec (row : ChannelBookmarkAndFileInfo) :
    (ToChannelBookmarkWithFileInfo row = none ↔
      row.FileInfoID ≠ "" ∧ row.FileID ≠ "" ∧ row.MiniPreview = none) ∧
    (∀ bwf, ToChannelBookmarkWithFileInfo row = some bwf →
      bwf.ChannelBookmark =
        { ID := row.ID, CreateAt := row.CreateAt, UpdateAt := row.UpdateAt,
          DeleteAt := row.DeleteAt, ChannelID := row.ChannelID, OwnerID := row.OwnerID,
          FileID := row.FileInfoID, DisplayName := row.DisplayName,
          SortOrder := row.SortOrder, LinkUrl := row.LinkUrl, ImageUrl := row.ImageUrl,
          Emoji := row.Emoji, Type_ := row.Type_, OriginalID := row.OriginalID,
          ParentID := row.ParentID } ∧
      ((∃ fi, bwf.FileInfo = some fi) ↔ row.FileInfoID ≠ "" ∧ row.FileID ≠ "") ∧
      (∀ fi, bwf.FileInfo = some fi →
        fi.ID = row.FileID ∧ fi.Name = row.FileName ∧ fi.Extension = row.Extension ∧
        fi.Size = row.Size ∧ fi.MimeType = row.MimeType ∧ fi.Width = row.Width ∧
        fi.Height = row.Height ∧ fi.HasPreviewImage = row.HasPreviewImage ∧
        (row.MiniPreview = some [] → fi.MiniPreview = none) ∧
        (∀ buf, row.MiniPreview = some buf → buf ≠ [] → fi.MiniPreview = some buf))) := by
  by_cases hids : row.FileInfoID ≠ "" ∧ row.FileID ≠ ""
  · cases hmp : row.MiniPreview with
    | none =>
      have hnone : ToChannelBookmarkWithFileInfo row = none := by
        simp [ToChannelBookmarkWithFileInfo, hids, hmp]
      refine ⟨⟨fun _ => ⟨hids.1, hids.2, rfl⟩, fun _ => hnone⟩, ?_⟩
      intro bwf h
      rw [hnone] at h
      exact absurd h (by simp)
    | some buf =>
      have hsome : ToChannelBookmarkWithFileInfo row =
          some { ChannelBookmark :=
                  { ID := row.ID, CreateAt := row.CreateAt, UpdateAt := row.UpdateAt,
                    DeleteAt := row.DeleteAt, ChannelID := row.ChannelID,
                    OwnerID := row.OwnerID, FileID := row.FileInfoID,
                    DisplayName := row.DisplayName, SortOrder := row.SortOrder,
                    LinkUrl := row.LinkUrl, ImageUrl := row.ImageUrl, Emoji := row.Emoji,
                    Type_ := row.Type_, OriginalID := row.OriginalID,
                    ParentID := row.ParentID }
                 FileInfo := some
                  { ID := row.FileID, Name := row.FileName, Extension := row.Extension,
                    Size := row.Size, MimeType := row.MimeType, Width := row.Width,
                    Height := row.Height, HasPreviewImage := row.HasPreviewImage,
                    MiniPreview := if buf.length = 0 then none else some buf } } := by
        simp [ToChannelBookmarkWithFileInfo, hids, hmp]
      refine ⟨⟨fun h => ?_, fun h => ?_⟩, ?_⟩
      · rw [hsome] at h
        exact absurd h (by simp)
      · exact absurd h.2.2 (by simp)
      · intro bwf h
        rw [hsome] at h
        have hb := (Option.some.inj h).symm
        subst hb
        refine ⟨rfl, ⟨fun _ => hids, fun _ => ⟨_, rfl⟩⟩, ?_⟩
        intro fi hfi
        have hf := (Option.some.inj hfi).symm
        subst hf
        refine ⟨rfl, rfl, rfl, rfl, rfl, rfl, rfl, rfl, ?_, ?_⟩
        · intro he
          have hbuf : buf = [] := (Option.some.inj he)
          simp [hbuf]
        · intro buf2 he hne
          have hbuf : buf = buf2 := (Option.some.inj he)
          subst hbuf
          have hlen : buf.length ≠ 0 := fun h0 => hne (List.length_eq_zero.mp h0)
          simp [hlen]
  · have hsome : ToChannelBookmarkWithFileInfo row =
        some { ChannelBookmark :=
                { ID := row.ID, CreateAt := row.CreateAt, UpdateAt := row.UpdateAt,
                  DeleteAt := row.DeleteAt, ChannelID := row.ChannelID,
                  OwnerID := row.OwnerID, FileID := row.FileInfoID,
                  DisplayName := row.DisplayName, SortOrder := row.SortOrder,
                  LinkUrl := row.LinkUrl, ImageUrl := row.ImageUrl, Emoji := row.Emoji,
                  Type_ := row.Type_, OriginalID := row.OriginalID,
                  ParentID := row.ParentID }
               FileInfo := none } := by
      unfold ToChannelBookmarkWithFileInfo
      rw [if_neg hids]
    refine ⟨⟨fun h => ?_, fun h => absurd ⟨h.1, h.2.1⟩ hids⟩, ?_⟩
    · rw [hsome] at h
      exact absurd h (by simp)
    · intro bwf h
      rw [hsome] at h
      have hb := (Option.some.inj h).symm
      subst hb
      refine ⟨rfl, ⟨fun ⟨fi, hfi⟩ => absurd hfi (by simp), fun h => absurd h hids⟩, ?_⟩
      intro fi hfi
      exact absurd hfi (by simp)

/-- Witness of C17 at a join row with both file identifiers set and a present,
empty thumbnail buffer: the function returns, a file-metadata record is
attached, and it has no thumbnail. -/
theorem ToChannelBookmarkWithFileInfo_spec_witness :
    ∃ bwf fi, ToChannelBookmarkWithFileInfo joinRowEmptyPreview = some bwf ∧
      bwf.FileInfo = some fi ∧ joinRowEmptyPreview.MiniPreview = some [] ∧
      bwf.ChannelBookmark.FileID = joinRowEmptyPreview.FileInfoID ∧
      fi.ID = joinRowEmptyPreview.FileID ∧ fi.MiniPreview = none :=
  match h : ToChannelBookmarkWithFileInfo joinRowEmptyPreview with
  | none => absurd h (by decide)
  | some bwf =>
    match hfi : bwf.FileInfo with
    | none =>
      absurd
        (((ToChannelBookmarkWithFileInfo_spec joinRowEmptyPreview).2 bwf h).2.1.mpr
          (by decide))
        (by simp [hfi])
    | some fi =>
      ⟨bwf, fi, rfl, hfi, rfl,
        by rw [((ToChannelBookmarkWithFileInfo_spec joinRowEmptyPreview).2 bwf h).1],
        (((ToChannelBookmarkWithFileInfo_spec joinRowEmptyPreview).2 bwf h).2.2 fi hfi).1,
        (((ToChannelBookmarkWithFileInfo_spec joinRowEmptyPreview).2 bwf h).2.2 fi
          hfi).2.2.2.2.2.2.2.2.1 rfl⟩

/-- C18 (the code fails): on the join row `joinRowNilPreview`, whose `FileInfoID`
and `FileID` are both non-empty and whose thumbnail buffer is nil,
`ToChannelBookmarkWithFileInfo` does not return a composite: it dereferences the
nil buffer. -/
theorem ToChannelBookmarkWithFileInfo_nil_preview_fails :
    joinRowNilPreview.FileInfoID ≠ "" ∧ joinRowNilPreview.FileID ≠ "" ∧
    joinRowNilPreview.MiniPreview = none ∧
    ToChannelBookmarkWithFileInfo joinRowNilPreview = none := by
  refine ⟨by decide, by decide, rfl, by decide⟩

/-! ### Audit snapshot -/

/-- C19: the audit snapshot of a bookmark has exactly the keys id, create_at,
update_at, delete_at, channel_id, owner_id, file_id, type, original_id and
parent_id, each mapped to the corresponding field; bookmarks that differ only
in displayName, sortOrder, linkUrl, imageUrl and emoji have the same snapshot. -/
theorem Auditable_spec (o : ChannelBookmark) (displayName linkUrl imageUrl emoji : String)
    (sortOrder : Int) :
    o.Auditable.map Prod.fst =
      ["id", "create_at", "update_at", "delete_at", "channel_id", "owner_id", "file_id",
       "type", "original_id", "parent_id"] ∧
    (o.Auditable.lookup "id" = some (AuditValue.str o.ID) ∧
      o.Auditable.lookup "create_at" = some (AuditValue.int o.CreateAt) ∧
      o.Auditable.lookup "update_at" = some (AuditValue.int o.UpdateAt) ∧
      o.Auditable.lookup "delete_at" = some (AuditValue.int o.DeleteAt) ∧
      o.Auditable.lookup "channel_id" = some (AuditValue.str o.ChannelID) ∧
      o.Auditable.lookup "owner_id" = some (AuditValue.str o.OwnerID) ∧
      o.Auditable.lookup "file_id" = some (AuditValue.str o.FileID) ∧
      o.Auditable.lookup "type" = some (AuditValue.bookmarkType o.Type_) ∧
      o.Auditable.lookup "original_id" = some (AuditValue.str o.OriginalID) ∧
      o.Auditable.lookup "parent_id" = some (AuditValue.str o.ParentID)) ∧
    ChannelBookmark.Auditable
        { o with DisplayName := displayName, SortOrder := sortOrder, LinkUrl := linkUrl,
                 ImageUrl := imageUrl, Emoji := emoji } =
      o.Auditable :=
  ⟨rfl, ⟨rfl, rfl, rfl, rfl, rfl, rfl, rfl, rfl, rfl, rfl⟩, rfl⟩

/-! ### List fingerprint -/

/-- The timestamp after one iteration of the plain loop. -/
theorem ChannelList.step_snd (acc : String × Int) (v : Channel) :
    (ChannelList.step acc v).2 = max (max acc.2 v.LastPostAt) v.UpdateAt := by
  unfold ChannelList.step
  by_cases h1 : v.LastPostAt > acc.2
  · by_cases h2 : v.UpdateAt > v.LastPostAt
    · simp only [h1, h2, if_true]; omega
    · simp only [h1, h2, if_true, if_false]; omega
  · by_cases h2 : v.UpdateAt > acc.2
    · simp only [h1, h2, if_true, if_false]; omega
    · simp only [h1, h2, if_false]; omega

/-- The timestamp after one iteration of the team-joined loop. -/
theorem ChannelListWithTeamData.team_step_snd (acc : String × Int) (v : ChannelWithTeamData) :
    (ChannelListWithTeamData.step acc v).2 =
      max (max (max acc.2 v.LastPostAt) v.UpdateAt) v.TeamUpdateAt := by
  unfold ChannelListWithTeamData.step
  by_cases h1 : v.LastPostAt > acc.2
  · by_cases h2 : v.UpdateAt > v.LastPostAt
    · by_cases h3 : v.TeamUpdateAt > v.UpdateAt
      · simp only [h1, h2, h3, if_true]; omega
      · simp only [h1, h2, h3, if_true, if_false]; omega
    · by_cases h3 : v.TeamUpdateAt > v.LastPostAt
      · simp only [h1, h2, h3, if_true, if_false]; omega
      · simp only [h1, h2, h3, if_true, if_false]; omega
  · by_cases h2 : v.UpdateAt > acc.2
    · by_cases h3 : v.TeamUpdateAt > v.UpdateAt
      · simp only [h1, h2, h3, if_true, if_false]; omega
      · simp only [h1, h2, h3, if_true, if_false]; omega
    · by_cases h3 : v.TeamUpdateAt > acc.2
      · simp only [h1, h2, h3, if_true, if_false]; omega
      · simp only [h1, h2, h3, if_false]; omega

theorem ChannelList.maxTimestamp_cons (v : Channel) (o : ChannelList) :
    ChannelList.maxTimestamp (v :: o) =
      max (max v.LastPostAt v.UpdateAt) (ChannelList.maxTimestamp o) := rfl

theorem ChannelListWithTeamData.team_maxTimestamp_cons (v : ChannelWithTeamData)
    (o : ChannelListWithTeamData) :
    ChannelListWithTeamData.maxTimestamp (v :: o) =
      max (max (max v.LastPostAt v.UpdateAt) v.TeamUpdateAt)
        (ChannelListWithTeamData.maxTimestamp o) := rfl

theorem ChannelList.maxTimestamp_nonneg (o : ChannelList) :
    0 ≤ ChannelList.maxTimestamp o := by
  induction o with
  | nil => exact le_refl 0
  | cons v o ih => rw [ChannelList.maxTimestamp_cons]; omega

theorem ChannelListWithTeamData.team_maxTimestamp_nonneg (o : ChannelListWithTeamData) :
    0 ≤ ChannelListWithTeamData.maxTimestamp o := by
  induction o with
  | nil => exact le_refl 0
  | cons v o ih => rw [ChannelListWithTeamData.team_maxTimestamp_cons]; omega

/-- Every candidate timestamp of a plain list is at most the maximum. -/
theorem ChannelList.le_maxTimestamp (o : ChannelList) (v : Channel) (hv : v ∈ o) :
    v.LastPostAt ≤ ChannelList.maxTimestamp o ∧ v.UpdateAt ≤ ChannelList.maxTimestamp o := by
  induction o with
  | nil => exact absurd hv (List.not_mem_nil v)
  | cons w o ih =>
    rw [ChannelList.maxTimestamp_cons]
    rcases List.mem_cons.mp hv with h | h
    · subst h
      omega
    · have := ih h
      omega

/-- Every candidate timestamp of a team-joined list is at most the maximum. -/
theorem ChannelListWithTeamData.team_le_maxTimestamp (o : ChannelListWithTeamData)
    (v : ChannelWithTeamData) (hv : v ∈ o) :
    v.LastPostAt ≤ ChannelListWithTeamData.maxTimestamp o ∧
    v.UpdateAt ≤ ChannelListWithTeamData.maxTimestamp o ∧
    v.TeamUpdateAt ≤ ChannelListWithTeamData.maxTimestamp o := by
  induction o with
  | nil => exact absurd hv (List.not_mem_nil v)
  | cons w o ih =>
    rw [ChannelListWithTeamData.team_maxTimestamp_cons]
    rcases List.mem_cons.mp hv with h | h
    · subst h
      omega
    · have := ih h
      omega

/-- The timestamp the plain loop ends with, from a starting pair whose timestamp
is not negative. -/
theorem ChannelList.foldl_step_snd (o : ChannelList) (acc : String × Int) (hacc : 0 ≤ acc.2) :
    (o.foldl ChannelList.step acc).2 = max acc.2 (ChannelList.maxTimestamp o) := by
  induction o generalizing acc with
  | nil =>
    show acc.2 = max acc.2 0
    omega
  | cons v o ih =>
    have hstep := ChannelList.step_snd acc v
    rw [List.foldl_cons, ih _ (by omega), hstep, ChannelList.maxTimestamp_cons]
    omega

/-- The timestamp the team-joined loop ends with, from a starting pair whose
timestamp is not negative. -/
theorem ChannelListWithTeamData.team_foldl_step_snd (o : ChannelListWithTeamData)
    (acc : String × Int) (hacc : 0 ≤ acc.2) :
    (o.foldl ChannelListWithTeamData.step acc).2 =
      max acc.2 (ChannelListWithTeamData.maxTimestamp o) := by
  induction o generalizing acc with
  | nil =>
    show acc.2 = max acc.2 0
    omega
  | cons v o ih =>
    have hstep := ChannelListWithTeamData.team_step_snd acc v
    rw [List.foldl_cons, ih _ (by omega), hstep,
      ChannelListWithTeamData.team_maxTimestamp_cons]
    omega

/-- The timestamp of the plain scan is the maximum of 0 and the candidates. -/
theorem ChannelList.scan_snd (o : ChannelList) :
    (ChannelList.scan o).2 = ChannelList.maxTimestamp o := by
  unfold ChannelList.scan
  rw [ChannelList.foldl_step_snd o ("0", 0) (le_refl 0)]
  have := ChannelList.maxTimestamp_nonneg o
  show max 0 (ChannelList.maxTimestamp o) = ChannelList.maxTimestamp o
  omega

/-- The timestamp of the team-joined scan is the maximum of 0 and the candidates. -/
theorem ChannelListWithTeamData.team_scan_snd (o : ChannelListWithTeamData) :
    (ChannelListWithTeamData.scan o).2 = ChannelListWithTeamData.maxTimestamp o := by
  unfold ChannelListWithTeamData.scan
  rw [ChannelListWithTeamData.team_foldl_step_snd o ("0", 0) (le_refl 0)]
  have := ChannelListWithTeamData.team_maxTimestamp_nonneg o
  show max 0 (ChannelListWithTeamData.maxTimestamp o) = ChannelListWithTeamData.maxTimestamp o
  omega

/-- C20: the token of `ChannelList.Etag` is built from the identifier and the
timestamp the loop ends with, the delta 0 and the length of the list; the
timestamp is the maximum of 0 and of `LastPostAt` and `UpdateAt` over the
records, hence at least every candidate timestamp.  The same holds of
`ChannelListWithTeamData.Etag`, with `TeamUpdateAt` among the candidates. -/
theorem Etag_built_from_maximum (Etag : String → Int → Int → Int → String)
    (o : ChannelList) (ot : ChannelListWithTeamData) :
    (ChannelList.Etag Etag o =
        Etag (ChannelList.scan o).1 (ChannelList.maxTimestamp o) 0 (o.length : Int) ∧
      (ChannelList.scan o).2 = ChannelList.maxTimestamp o ∧
      0 ≤ ChannelList.maxTimestamp o ∧
      ∀ v ∈ o, v.LastPostAt ≤ ChannelList.maxTimestamp o ∧
        v.UpdateAt ≤ ChannelList.maxTimestamp o) ∧
    (ChannelListWithTeamData.Etag Etag ot =
        Etag (ChannelListWithTeamData.scan ot).1 (ChannelListWithTeamData.maxTimestamp ot) 0
          (ot.length : Int) ∧
      (ChannelListWithTeamData.scan ot).2 = ChannelListWithTeamData.maxTimestamp ot ∧
      0 ≤ ChannelListWithTeamData.maxTimestamp ot ∧
      ∀ v ∈ ot, v.LastPostAt ≤ ChannelListWithTeamData.maxTimestamp ot ∧
        v.UpdateAt ≤ ChannelListWithTeamData.maxTimestamp ot ∧
        v.TeamUpdateAt ≤ ChannelListWithTeamData.maxTimestamp ot) := by
  refine ⟨⟨?_, ChannelList.scan_snd o, ChannelList.maxTimestamp_nonneg o,
      fun v hv => ChannelList.le_maxTimestamp o v hv⟩,
    ⟨?_, ChannelListWithTeamData.team_scan_snd ot,
      ChannelListWithTeamData.team_maxTimestamp_nonneg ot,
      fun v hv => ChannelListWithTeamData.team_le_maxTimestamp ot v hv⟩⟩
  · unfold ChannelList.Etag
    rw [ChannelList.scan_snd]
  · unfold ChannelListWithTeamData.Etag
    rw [ChannelListWithTeamData.team_scan_snd]

/-- Witness of C20 at two concrete lists: the timestamps the loops end with are
7 and 9, the identifiers those of the records that hold them, and the
candidates of the listed records are below the maximum. -/
theorem Etag_built_from_maximum_witness :
    ChannelList.scan twoChannels = ("gggggggggggggggggggggggggg", 7) ∧
    ChannelListWithTeamData.scan twoTeamChannels = ("bbbbbbbbbbbbbbbbbbbbbbbbbb", 9) ∧
    ChannelList.maxTimestamp twoChannels = 7 ∧
    ChannelListWithTeamData.maxTimestamp twoTeamChannels = 9 ∧
    (5 : Int) ≤ ChannelList.maxTimestamp twoChannels ∧
    (1 : Int) ≤ ChannelListWithTeamData.maxTimestamp twoTeamChannels :=
  ⟨by decide, by decide,
    (Etag_built_from_maximum exampleEtag twoChannels twoTeamChannels).1.2.1.symm.trans
      (by decide),
    (Etag_built_from_maximum exampleEtag twoChannels twoTeamChannels).2.2.1.symm.trans
      (by decide),
    ((Etag_built_from_maximum exampleEtag twoChannels twoTeamChannels).1.2.2.2
      { ID := "bbbbbbbbbbbbbbbbbbbbbbbbbb", LastPostAt := 5, UpdateAt := 3 }
      (by decide)).1,
    ((Etag_built_from_maximum exampleEtag twoChannels twoTeamChannels).2.2.2.2
      { ID := "gggggggggggggggggggggggggg", LastPostAt := 5, UpdateAt := 7, TeamUpdateAt := 1 }
      (by decide)).2.2⟩

/-! ### Status of the violations and validity of a fork -/

/-- A chain link of a validator: when `if c then some a else r` reports `e`,
either `e` is `a` or the rest of the chain reports `e`. -/
theorem ite_some_eq_some {α : Type} {c : Prop} [Decidable c] {a e : α} {r : Option α}
    (h : (if c then some a else r) = some e) : a = e ∨ r = some e := by
  by_cases hc : c
  · rw [if_pos hc] at h
    exact Or.inl (Option.some.inj h)
  · rw [if_neg hc] at h
    exact Or.inr h

/-- C23: every violation `IsValid` returns is built by `NewAppError` with the
status argument `http.StatusBadRequest`, and so carries the status 400. -/
theorem IsValid_status_bad_request (IsValidID IsValidHTTPURL : String → Bool)
    (o : ChannelBookmark) (e : AppError) (h : IsValid IsValidID IsValidHTTPURL o = some e) :
    (∃ id details,
      e = NewAppError "ChannelBookmark.IsValid" id [] details StatusBadRequest) ∧
    e.StatusCode = 400 := by
  unfold IsValid at h
  repeat
    rcases ite_some_eq_some h with h1 | h
    · subst h1
      exact ⟨⟨_, _, rfl⟩, rfl⟩
  cases h

/-- Witness of C23 at the record `badChannelNoCreateAt`, whose violation is the
create-at one. -/
theorem IsValid_status_bad_request_witness :
    IsValid exampleIsValidID exampleIsValidHTTPURL badChannelNoCreateAt =
      some (NewAppError "ChannelBookmark.IsValid"
        "model.channel_bookmark.is_valid.create_at.app_error" []
        "id=aaaaaaaaaaaaaaaaaaaaaaaaaa" StatusBadRequest) ∧
    (NewAppError "ChannelBookmark.IsValid"
      "model.channel_bookmark.is_valid.create_at.app_error" []
      "id=aaaaaaaaaaaaaaaaaaaaaaaaaa" StatusBadRequest).StatusCode = 400 :=
  ⟨by decide,
    (IsValid_status_bad_request exampleIsValidID exampleIsValidHTTPURL badChannelNoCreateAt
      _ (by decide)).2⟩

/-- C24: when the empty string is not a valid identifier, `IsValid` reports the
id violation on the record `SetOriginal` returns, whatever the source record
and the new owner; and forking that record again gives a record whose
originalId is empty. -/
theorem IsValid_fork_reports_id (IsValidID IsValidHTTPURL : String → Bool)
    (r : ChannelBookmark) (newOwnerID newOwnerID2 : String)
    (hempty : IsValidID "" = false) :
    IsValid IsValidID IsValidHTTPURL (SetOriginal r newOwnerID).2 =
      some (NewAppError "ChannelBookmark.IsValid"
        "model.channel_bookmark.is_valid.id.app_error" [] "" StatusBadRequest) ∧
    (SetOriginal (SetOriginal r newOwnerID).2 newOwnerID2).2.OriginalID = "" := by
  refine ⟨?_, rfl⟩
  have hid : (SetOriginal r newOwnerID).2.ID = "" := rfl
  unfold IsValid
  rw [if_pos (by rw [hid, hempty]; simp)]

/-- Witness of C24: the fork of the valid bookmark `linkBookmark` is reported
with the id violation, and the fork of that fork has an empty originalId. -/
theorem IsValid_fork_reports_id_witness :
    exampleIsValidID "" = false ∧
    IsValid exampleIsValidID exampleIsValidHTTPURL linkBookmark = none ∧
    IsValid exampleIsValidID exampleIsValidHTTPURL
        (SetOriginal linkBookmark "ffffffffffffffffffffffffff").2 =
      some (NewAppError "ChannelBookmark.IsValid"
        "model.channel_bookmark.is_valid.id.app_error" [] "" StatusBadRequest) ∧
    (SetOriginal (SetOriginal linkBookmark "ffffffffffffffffffffffffff").2
      "hhhhhhhhhhhhhhhhhhhhhhhhhh").2.OriginalID = "" :=
  ⟨by decide, by decide,
    IsValid_fork_reports_id exampleIsValidID exampleIsValidHTTPURL linkBookmark
      "ffffffffffffffffffffffffff" "hhhhhhhhhhhhhhhhhhhhhhhhhh" (by decide)⟩

/-! ### Audit snapshot of an update response -/

/-- C25: the audit snapshot of an update response has no key other than
"updated", and never the key "deleted"; when `Deleted` is set the snapshot of
the deleted bookmark is the entry of "updated", also when `Updated` is set;
when only `Updated` is set its snapshot is the entry; when neither is set the
map is empty. -/
theorem UpdateResponse_Auditable_keys
    (fileInfoAuditable : FileInfo → List (String × AuditValue))
    (r : UpdateChannelBookmarkResponse) :
    (∀ k ∈ (r.Auditable fileInfoAuditable).map Prod.fst, k = "updated") ∧
    "deleted" ∉ (r.Auditable fileInfoAuditable).map Prod.fst ∧
    (∀ d, r.Deleted = some d →
      r.Auditable fileInfoAuditable =
        [("updated", AuditValue.map (d.Auditable fileInfoAuditable))]) ∧
    (∀ u, r.Deleted = none → r.Updated = some u →
      r.Auditable fileInfoAuditable =
        [("updated", AuditValue.map (u.Auditable fileInfoAuditable))]) ∧
    (r.Updated = none → r.Deleted = none → r.Auditable fileInfoAuditable = []) := by
  obtain ⟨u, d⟩ := r
  cases u <;> cases d <;>
    simp [UpdateChannelBookmarkResponse.Auditable, mapSet]

/-- Witness of C25 at a response with both slots set: the only entry is
"updated", and it holds the snapshot of the deleted bookmark. -/
theorem UpdateResponse_Auditable_keys_witness :
    updatedAndDeleted.Deleted = some { ChannelBookmark := fileBookmark, FileInfo := none } ∧
    updatedAndDeleted.Auditable exampleFileInfoAuditable =
      [("updated", AuditValue.map fileBookmark.Auditable)] :=
  ⟨rfl,
    (UpdateResponse_Auditable_keys exampleFileInfoAuditable updatedAndDeleted).2.2.1
      { ChannelBookmark := fileBookmark, FileInfo := none } rfl⟩

/-! ### Winner of the fingerprint -/

/-- The plain loop leaves the pair alone on records none of whose candidate
timestamps exceeds the timestamp of the pair. -/
theorem ChannelList.foldl_step_of_le (o : ChannelList) (acc : String × Int)
    (h : ∀ v ∈ o, v.LastPostAt ≤ acc.2 ∧ v.UpdateAt ≤ acc.2) :
    o.foldl ChannelList.step acc = acc := by
  induction o with
  | nil => rfl
  | cons v o ih =>
    have hv := h v (List.mem_cons_self v o)
    have h1 : ¬ (v.LastPostAt > acc.2) := by omega
    have h2 : ¬ (v.UpdateAt > acc.2) := by omega
    have hstep : ChannelList.step acc v = acc := by
      simp only [ChannelList.step, h1, h2, if_false]
    rw [List.foldl_cons, hstep]
    exact ih (fun w hw => h w (List.mem_cons_of_mem v hw))

/-- One iteration on a record that raises the timestamp makes that record the
winner. -/
theorem ChannelList.step_fst_of_lt (acc : String × Int) (v : Channel)
    (h : acc.2 < max v.LastPostAt v.UpdateAt) : (ChannelList.step acc v).1 = v.ID := by
  by_cases h1 : v.LastPostAt > acc.2
  · by_cases h2 : v.UpdateAt > v.LastPostAt
    · simp only [ChannelList.step, h1, h2, if_true]
    · simp only [ChannelList.step, h1, h2, if_true, if_false]
  · have h2 : v.UpdateAt > acc.2 := by omega
    simp only [ChannelList.step, h1, h2, if_true, if_false]

/-- From a pair whose timestamp is not negative and below the maximum of the
list, the plain loop ends with the identifier of the first record one of whose
candidate timestamps is the maximum. -/
theorem ChannelList.foldl_step_fst (o : ChannelList) (acc : String × Int)
    (hacc : 0 ≤ acc.2) (hlt : acc.2 < ChannelList.maxTimestamp o) :
    ∃ v, o.find? (fun v => decide (v.LastPostAt = ChannelList.maxTimestamp o ∨
        v.UpdateAt = ChannelList.maxTimestamp o)) = some v ∧
      (o.foldl ChannelList.step acc).1 = v.ID := by
  induction o generalizing acc with
  | nil =>
    have h0 : ChannelList.maxTimestamp [] = 0 := rfl
    omega
  | cons v o ih =>
    have hM := ChannelList.maxTimestamp_cons v o
    have hnn := ChannelList.maxTimestamp_nonneg o
    have hsnd := ChannelList.step_snd acc v
    by_cases hv : v.LastPostAt = ChannelList.maxTimestamp (v :: o) ∨
        v.UpdateAt = ChannelList.maxTimestamp (v :: o)
    · refine ⟨v, List.find?_cons_of_pos _ (by simpa using hv), ?_⟩
      have hfst : (ChannelList.step acc v).1 = v.ID :=
        ChannelList.step_fst_of_lt acc v (by omega)
      have hrest : o.foldl ChannelList.step (ChannelList.step acc v) =
          ChannelList.step acc v := by
        apply ChannelList.foldl_step_of_le
        intro w hw
        have := ChannelList.le_maxTimestamp o w hw
        omega
      rw [List.foldl_cons, hrest, hfst]
    · have hL : v.LastPostAt ≠ ChannelList.maxTimestamp (v :: o) := fun h => hv (Or.inl h)
      have hU : v.UpdateAt ≠ ChannelList.maxTimestamp (v :: o) := fun h => hv (Or.inr h)
      have hsame : ChannelList.maxTimestamp o = ChannelList.maxTimestamp (v :: o) := by omega
      obtain ⟨w, hfind, hw⟩ := ih (ChannelList.step acc v) (by omega) (by omega)
      refine ⟨w, ?_, ?_⟩
      · rw [List.find?_cons_of_neg _ (by simpa using hv), ← hsame]
        exact hfind
      · rw [List.foldl_cons]
        exact hw

/-- C21: the identifier carried into the token of `ChannelList.Etag` is the one
the loop ends with.  When the maximum is greater than 0 it is the id of the
first record, in scan order, one of whose candidate timestamps is the maximum;
records appended to a list whose candidate timestamps do not exceed the maximum
of the list, ties included, leave identifier and timestamp as they were; when
no candidate timestamp is greater than 0, as in the empty list, it is "0". -/
theorem Etag_winner_is_first_maximum (Etag : String → Int → Int → Int → String)
    (o rest : ChannelList) :
    ChannelList.Etag Etag o =
      Etag (ChannelList.scan o).1 (ChannelList.scan o).2 0 (o.length : Int) ∧
    (0 < ChannelList.maxTimestamp o →
      ∃ v, o.find? (fun v => decide (v.LastPostAt = ChannelList.maxTimestamp o ∨
          v.UpdateAt = ChannelList.maxTimestamp o)) = some v ∧
        (ChannelList.scan o).1 = v.ID) ∧
    ((∀ w ∈ rest, w.LastPostAt ≤ ChannelList.maxTimestamp o ∧
        w.UpdateAt ≤ ChannelList.maxTimestamp o) →
      ChannelList.scan (o ++ rest) = ChannelList.scan o) ∧
    ((∀ v ∈ o, v.LastPostAt ≤ 0 ∧ v.UpdateAt ≤ 0) → (ChannelList.scan o).1 = "0") ∧
    (ChannelList.scan []).1 = "0" := by
  refine ⟨rfl, ?_, ?_, ?_, rfl⟩
  · intro hpos
    exact ChannelList.foldl_step_fst o ("0", 0) (le_refl 0) hpos
  · intro hrest
    have hsnd := ChannelList.scan_snd o
    unfold ChannelList.scan at hsnd ⊢
    rw [List.foldl_append]
    apply ChannelList.foldl_step_of_le
    intro w hw
    rw [hsnd]
    exact hrest w hw
  · intro hle
    unfold ChannelList.scan
    rw [ChannelList.foldl_step_of_le o ("0", 0) hle]

/-- Witness of C21: in `twoChannels` the second record alone reaches the maximum
7 and wins; in `tiedChannels` both records reach 7 and the first one stays the
winner when the second is appended. -/
theorem Etag_winner_is_first_maximum_witness :
    (0 < ChannelList.maxTimestamp twoChannels ∧
      ∃ v, twoChannels.find? (fun v =>
          decide (v.LastPostAt = ChannelList.maxTimestamp twoChannels ∨
            v.UpdateAt = ChannelList.maxTimestamp twoChannels)) = some v ∧
        (ChannelList.scan twoChannels).1 = v.ID) ∧
    (ChannelList.scan twoChannels).1 = "gggggggggggggggggggggggggg" ∧
    ChannelList.scan tiedChannels =
      ChannelList.scan [{ ID := "bbbbbbbbbbbbbbbbbbbbbbbbbb", LastPostAt := 7, UpdateAt := 3 }] ∧
    (ChannelList.scan tiedChannels).1 = "bbbbbbbbbbbbbbbbbbbbbbbbbb" :=
  ⟨⟨by decide, (Etag_winner_is_first_maximum exampleEtag twoChannels []).2.1 (by decide)⟩,
    by decide,
    (Etag_winner_is_first_maximum exampleEtag
      [{ ID := "bbbbbbbbbbbbbbbbbbbbbbbbbb", LastPostAt := 7, UpdateAt := 3 }]
      [{ ID := "gggggggggggggggggggggggggg", LastPostAt := 5, UpdateAt := 7 }]).2.2.1
      (by decide),
    by decide⟩

/-! ### The team-joined fingerprint against the plain one -/

/-- The team-joined loop is the plain loop on the underlying channels when no
team-update time exceeds the maximum of 0 and the timestamps of its record. -/
theorem ChannelListWithTeamData.team_foldl_eq_plain (ot : ChannelListWithTeamData)
    (acc : String × Int) (hacc : 0 ≤ acc.2)
    (h : ∀ v ∈ ot, v.TeamUpdateAt ≤ max 0 (max v.LastPostAt v.UpdateAt)) :
    ot.foldl ChannelListWithTeamData.step acc =
      (ot.map fun v => v.toChannel).foldl ChannelList.step acc := by
  induction ot generalizing acc with
  | nil => rfl
  | cons v ot ih =>
    have hv := h v (List.mem_cons_self v ot)
    have hsnd := ChannelList.step_snd acc v.toChannel
    have hthird : ¬ (v.TeamUpdateAt > (ChannelList.step acc v.toChannel).2) := by omega
    have hstep : ChannelListWithTeamData.step acc v = ChannelList.step acc v.toChannel := by
      show (if v.TeamUpdateAt > (ChannelList.step acc v.toChannel).2 then
          (v.ID, v.TeamUpdateAt) else ChannelList.step acc v.toChannel) = _
      rw [if_neg hthird]
    rw [List.map_cons, List.foldl_cons, List.foldl_cons, hstep]
    exact ih _ (by omega) (fun w hw => h w (List.mem_cons_of_mem v hw))

/-- C26: on a team-joined list in which the team-update time of each record is
at most the maximum of 0, its `LastPostAt` and its `UpdateAt`,
`ChannelListWithTeamData.Etag` ends its loop with the identifier and timestamp
`ChannelList.Etag` ends with on the underlying channels, the lengths are equal,
and the two tokens are equal. -/
theorem team_Etag_refines_plain (Etag : String → Int → Int → Int → String)
    (ot : ChannelListWithTeamData)
    (h : ∀ v ∈ ot, v.TeamUpdateAt ≤ max 0 (max v.LastPostAt v.UpdateAt)) :
    ChannelListWithTeamData.scan ot = ChannelList.scan (ot.map fun v => v.toChannel) ∧
    (ot.length : Int) = ((ot.map fun v => v.toChannel).length : Int) ∧
    ChannelListWithTeamData.Etag Etag ot =
      ChannelList.Etag Etag (ot.map fun v => v.toChannel) := by
  have hscan : ChannelListWithTeamData.scan ot =
      ChannelList.scan (ot.map fun v => v.toChannel) :=
    ChannelListWithTeamData.team_foldl_eq_plain ot ("0", 0) (le_refl 0) h
  have hlen : (ot.length : Int) = ((ot.map fun v => v.toChannel).length : Int) := by
    rw [List.length_map]
  refine ⟨hscan, hlen, ?_⟩
  unfold ChannelListWithTeamData.Etag ChannelList.Etag
  rw [hscan, hlen]

/-- Witness of C26 at `quietTeamChannels`. -/
theorem team_Etag_refines_plain_witness :
    (∀ v ∈ quietTeamChannels, v.TeamUpdateAt ≤ max 0 (max v.LastPostAt v.UpdateAt)) ∧
    ChannelListWithTeamData.scan quietTeamChannels = ("gggggggggggggggggggggggggg", 7) ∧
    ChannelListWithTeamData.Etag exampleEtag quietTeamChannels =
      ChannelList.Etag exampleEtag (quietTeamChannels.map fun v => v.toChannel) :=
  ⟨by decide, by decide,
    (team_Etag_refines_plain exampleEtag quietTeamChannels (by decide)).2.2⟩

/-! ### Fingerprint of the empty list and of equal lists -/

/-- An integer in unary followed by anything determines the integer and what
follows. -/
theorem encodeInt_append_inj (k k2 : Int) (r r2 : List Char)
    (h : encodeInt k ++ r = encodeInt k2 ++ r2) : k = k2 ∧ r = r2 := by
  have hbody : ∀ (j : Int) (c : Char),
      c ∈ List.replicate j.toNat 'p' ++ List.replicate (-j).toNat 'm' →
        (c != ',') = true := by
    intro j c hc
    rcases List.mem_append.mp hc with hc | hc
    · rw [(List.mem_replicate.mp hc).2]; decide
    · rw [(List.mem_replicate.mp hc).2]; decide
  have hshape : ∀ (j : Int) (t : List Char),
      encodeInt j ++ t =
        (List.replicate j.toNat 'p' ++ List.replicate (-j).toNat 'm') ++ ',' :: t := by
    intro j t
    simp [encodeInt]
  rw [hshape, hshape] at h
  have htake := congrArg (List.takeWhile fun c => c != ',') h
  have hdrop := congrArg (List.dropWhile fun c => c != ',') h
  rw [List.takeWhile_append_of_pos (hbody k), List.takeWhile_append_of_pos (hbody k2)]
    at htake
  rw [List.dropWhile_append_of_pos (hbody k), List.dropWhile_append_of_pos (hbody k2)]
    at hdrop
  have hstop : ∀ t : List Char, List.takeWhile (fun c => c != ',') (',' :: t) = [] :=
    fun t => List.takeWhile_cons_of_neg (by decide)
  have hkeep : ∀ t : List Char, List.dropWhile (fun c => c != ',') (',' :: t) = ',' :: t :=
    fun t => List.dropWhile_cons_of_neg (by decide)
  rw [hstop, hstop, List.append_nil, List.append_nil] at htake
  rw [hkeep, hkeep] at hdrop
  have hp := congrArg (List.count 'p') htake
  have hm := congrArg (List.count 'm') htake
  simp [List.count_replicate] at hp hm
  exact ⟨by omega, List.tail_eq_of_cons_eq hdrop⟩

/-- The unary token builder is injective in its arguments. -/
theorem unaryEtag_injective : EtagInjective unaryEtag := by
  intro id t delta n id2 t2 delta2 n2 h
  have hdata := congrArg String.data h
  simp only [unaryEtag] at hdata
  obtain ⟨ht, h1⟩ := encodeInt_append_inj _ _ _ _ hdata
  obtain ⟨hd, h2⟩ := encodeInt_append_inj _ _ _ _ h1
  obtain ⟨hn, h3⟩ := encodeInt_append_inj _ _ _ _ h2
  exact ⟨String.ext h3, ht, hd, hn⟩

/-- C22: `ChannelList.Etag` of the empty list is the token built from "0", 0, 0
and 0; the length passed for a non-empty list is at least 1, so that, the token
builder being injective in its arguments, the token of a non-empty list differs
from that of the empty list; and equal lists have equal tokens. -/
theorem Etag_empty_and_equal_lists (Etag : String → Int → Int → Int → String)
    (o o2 : ChannelList) :
    ChannelList.Etag Etag [] = Etag "0" 0 0 0 ∧
    (o ≠ [] → 1 ≤ (o.length : Int)) ∧
    (EtagInjective Etag → o ≠ [] → ChannelList.Etag Etag o ≠ ChannelList.Etag Etag []) ∧
    (o = o2 → ChannelList.Etag Etag o = ChannelList.Etag Etag o2) := by
  have hlen : o ≠ [] → 1 ≤ (o.length : Int) := by
    intro hne
    have := List.length_pos.mpr hne
    omega
  refine ⟨rfl, hlen, ?_, fun h => by rw [h]⟩
  intro hinj hne heq
  have h4 := (hinj _ _ _ _ _ _ _ _ heq).2.2.2
  have h1 := hlen hne
  have h0 : (([] : ChannelList).length : Int) = 0 := rfl
  omega

/-- Witness of C22 with the unary token builder and the list `twoChannels`. -/
theorem Etag_empty_and_equal_lists_witness :
    EtagInjective unaryEtag ∧ twoChannels ≠ [] ∧
    (1 : Int) ≤ (twoChannels.length : Int) ∧
    ChannelList.Etag unaryEtag twoChannels ≠ ChannelList.Etag unaryEtag [] ∧
    ChannelList.Etag unaryEtag twoChannels = ChannelList.Etag unaryEtag twoChannels :=
  ⟨unaryEtag_injective, by decide,
    (Etag_empty_and_equal_lists unaryEtag twoChannels twoChannels).2.1 (by decide),
    (Etag_empty_and_equal_lists unaryEtag twoChannels twoChannels).2.2.1
      unaryEtag_injective (by decide),
    (Etag_empty_and_equal_lists unaryEtag twoChannels twoChannels).2.2.2 rfl⟩

end Model
